import Mathlib

/-!
Verification of the aarch64-esr-decoder bitfield decoding engine.

The definitions below are a shallow embedding of the Rust sources:
`src/esr/mod.rs`, `src/esr/abort.rs`, `src/esr/serror.rs`, `src/esr/wf.rs`,
`src/esr/sve.rs`, `src/esr/ldc.rs`, `src/esr/ld64b.rs`, `src/esr/mcr.rs`,
`src/esr/bti.rs`, `src/esr/fp.rs`, `src/esr/pauth.rs`, `src/breakpoint.rs`,
`src/msr.rs`, `src/midr.rs`, `src/smccc.rs` and its submodules.
Machine integers (u64) are modelled as `Nat` with explicit truncation in
`extract`; Rust `Result` is modelled as `Except`; a Rust panic
(`assert!`/`unreachable!`) is modelled as the distinguished outcome
`Fail.panic` so that panic-freedom is provable.
-/

namespace AArch64Esr

/-- Bits `[s, e)` of `value`, right-shifted to start at bit 0
(the `bit_field::BitField::get_bits` operation used by `FieldInfo::get`). -/
def extract (value s e : Nat) : Nat := (value >>> s) % 2 ^ (e - s)

theorem extract_lt (value s e : Nat) : extract value s e < 2 ^ (e - s) :=
  Nat.mod_lt _ (Nat.pos_pow_of_pos _ (by norm_num))

/-- The decoded-field record from the library root (`FieldInfo`).
Modelled from the spec: the crate root `lib.rs` defining `FieldInfo` is not
among the sources; §3 of the spec gives its fields (name, optional long
name, start, width, value, optional description, recursive subfields), and
the expected values in `src/esr/tests.rs` fix the exact shape. -/
inductive FieldInfo : Type where
  | mk (name : String) (long_name : Option String) (start : Nat) (width : Nat)
      (value : Nat) (description : Option String) (subfields : List FieldInfo) : FieldInfo
deriving Inhabited

namespace FieldInfo

def name : FieldInfo → String
  | mk n _ _ _ _ _ _ => n

def long_name : FieldInfo → Option String
  | mk _ l _ _ _ _ _ => l

def start : FieldInfo → Nat
  | mk _ _ s _ _ _ _ => s

def width : FieldInfo → Nat
  | mk _ _ _ w _ _ _ => w

def value : FieldInfo → Nat
  | mk _ _ _ _ v _ _ => v

def description : FieldInfo → Option String
  | mk _ _ _ _ _ d _ => d

def subfields : FieldInfo → List FieldInfo
  | mk _ _ _ _ _ _ s => s

@[simp] theorem name_mk (n l s w v d subs) : (mk n l s w v d subs).name = n := rfl
@[simp] theorem long_name_mk (n l s w v d subs) : (mk n l s w v d subs).long_name = l := rfl
@[simp] theorem start_mk (n l s w v d subs) : (mk n l s w v d subs).start = s := rfl
@[simp] theorem width_mk (n l s w v d subs) : (mk n l s w v d subs).width = w := rfl
@[simp] theorem value_mk (n l s w v d subs) : (mk n l s w v d subs).value = v := rfl
@[simp] theorem description_mk (n l s w v d subs) : (mk n l s w v d subs).description = d := rfl
@[simp] theorem subfields_mk (n l s w v d subs) : (mk n l s w v d subs).subfields = subs := rfl

end FieldInfo

/-- The error taxonomy of the decoder (`DecodeError`).
Modelled from the spec: the crate root `lib.rs` declaring `DecodeError` is
not among the sources; §7 of the spec lists exactly these variants, and
every sub-decoder under `src/` constructs them with these names. -/
inductive DecodeError : Type where
  | InvalidRes0 (res0 : Nat)
  | InvalidEc (ec : Nat)
  | InvalidFsc (fsc : Nat)
  | InvalidSet (set : Nat)
  | InvalidAet (aet : Nat)
  | InvalidAm (am : Nat)
  | InvalidLd64bIss (iss : Nat)
deriving DecidableEq

/-- Outcome of a fallible decoding step: either a typed `DecodeError`
(Rust `Err`) or a panic (`assert!` failure or `unreachable!`). -/
inductive Fail : Type where
  | panic
  | err (e : DecodeError)
deriving DecidableEq

/-- Shorthand for the result type of every decoding step. -/
abbrev DR (α : Type) := Except Fail α

namespace FieldInfo

/-- `FieldInfo::get` (modelled from the spec, §4.2: the crate root `lib.rs`
is not among the sources; corroborated by the stale root-level copy in
`src/lib.rs` and the expected values in `src/esr/tests.rs`). -/
def get (register : Nat) (name : String) (long_name : Option String) (s e : Nat) : FieldInfo :=
  mk name long_name s (e - s) (extract register s e) none []

/-- `FieldInfo::get_bit` (modelled from the spec, §4.2). -/
def get_bit (register : Nat) (name : String) (long_name : Option String) (bit : Nat) : FieldInfo :=
  get register name long_name bit (bit + 1)

/-- `FieldInfo::with_description` (modelled from the spec, §4.2). -/
def with_description : FieldInfo → String → FieldInfo
  | mk n l s w v _ subs, d => mk n l s w v (some d) subs

/-- `FieldInfo::as_bit` (modelled from the spec, §4.2): asserts that the
field is one bit wide; the assertion failure is a panic. -/
def as_bit (f : FieldInfo) : DR Bool :=
  if f.width = 1 then .ok (f.value == 1) else .error .panic

/-- `FieldInfo::describe_bit` (modelled from the spec, §4.2): requires
`width == 1` and panics otherwise. -/
def describe_bit (f : FieldInfo) (describer : Bool → String) : DR FieldInfo :=
  match f.as_bit with
  | .ok b => .ok (f.with_description (describer b))
  | .error e => .error e

/-- `FieldInfo::describe` (modelled from the spec, §4.2): applies a fallible
classifier to the value and propagates its error unchanged. -/
def describe (f : FieldInfo) (describer : Nat → DR String) : DR FieldInfo :=
  match describer f.value with
  | .ok s => .ok (f.with_description s)
  | .error e => .error e

/-- `FieldInfo::check_res0` (modelled from the spec, §4.2): fails with
`InvalidRes0{value}` when the extracted value is nonzero. -/
def check_res0 (f : FieldInfo) : DR FieldInfo :=
  if f.value ≠ 0 then .error (.err (.InvalidRes0 f.value)) else .ok f

@[simp] theorem with_description_name (f : FieldInfo) (d : String) :
    (f.with_description d).name = f.name := by cases f; rfl

@[simp] theorem with_description_start (f : FieldInfo) (d : String) :
    (f.with_description d).start = f.start := by cases f; rfl

@[simp] theorem with_description_width (f : FieldInfo) (d : String) :
    (f.with_description d).width = f.width := by cases f; rfl

@[simp] theorem with_description_value (f : FieldInfo) (d : String) :
    (f.with_description d).value = f.value := by cases f; rfl

@[simp] theorem with_description_subfields (f : FieldInfo) (d : String) :
    (f.with_description d).subfields = f.subfields := by cases f; rfl

@[simp] theorem with_description_description (f : FieldInfo) (d : String) :
    (f.with_description d).description = some d := by cases f; rfl

@[simp] theorem get_eq (r : Nat) (n : String) (l : Option String) (s e : Nat) :
    get r n l s e = mk n l s (e - s) (extract r s e) none [] := rfl

@[simp] theorem get_bit_eq (r : Nat) (n : String) (l : Option String) (b : Nat) :
    get_bit r n l b = mk n l b 1 (extract r b (b + 1)) none [] := by
  simp [get_bit, get, Nat.add_sub_cancel_left]

@[simp] theorem as_bit_mk1 (n : String) (l : Option String) (b v : Nat)
    (d : Option String) (subs : List FieldInfo) :
    (mk n l b 1 v d subs).as_bit = .ok (v == 1) := by
  simp [as_bit]

@[simp] theorem describe_bit_mk1 (n : String) (l : Option String) (b v : Nat)
    (d : Option String) (subs : List FieldInfo) (dd : Bool → String) :
    (mk n l b 1 v d subs).describe_bit dd = .ok (mk n l b 1 v (some (dd (v == 1))) subs) := by
  simp [describe_bit, as_bit, with_description]

end FieldInfo

@[simp] theorem DR_bind_ok {α β : Type} (a : α) (k : α → DR β) :
    ((Except.ok a : DR α) >>= k) = k a := rfl

@[simp] theorem DR_bind_error {α β : Type} (e : Fail) (k : α → DR β) :
    ((Except.error e : DR α) >>= k) = .error e := rfl

@[simp] theorem DR_pure {α : Type} (a : α) : (pure a : DR α) = .ok a := rfl

/-- Unfold a monadic bind into its defining match, so that `split` can case
on the bound computation. -/
theorem DR_bind_def {α β : Type} (x : DR α) (k : α → DR β) :
    (x >>= k) = match x with
      | .ok a => k a
      | .error e => .error e := by
  cases x <;> rfl

/-! ### `src/esr/abort.rs` -/

/-- `describe_fsc` from `src/esr/abort.rs`. -/
def describe_fsc (fsc : Nat) : DR String :=
  match fsc with
  | 0b000000 => .ok "Address size fault, level 0 of translation or translation table base register."
  | 0b000001 => .ok "Address size fault, level 1."
  | 0b000010 => .ok "Address size fault, level 2."
  | 0b000011 => .ok "Address size fault, level 3."
  | 0b000100 => .ok "Translation fault, level 0."
  | 0b000101 => .ok "Translation fault, level 1."
  | 0b000110 => .ok "Translation fault, level 2."
  | 0b000111 => .ok "Translation fault, level 3."
  | 0b001001 => .ok "Access flag fault, level 1."
  | 0b001010 => .ok "Access flag fault, level 2."
  | 0b001011 => .ok "Access flag fault, level 3."
  | 0b001000 => .ok "Access flag fault, level 0."
  | 0b001100 => .ok "Permission fault, level 0."
  | 0b001101 => .ok "Permission fault, level 1."
  | 0b001110 => .ok "Permission fault, level 2."
  | 0b001111 => .ok "Permission fault, level 3."
  | 0b010000 => .ok "Synchronous External abort, not on translation table walk or hardware update of translation table."
  | 0b010001 => .ok "Synchronous Tag Check Fault."
  | 0b010011 => .ok "Synchronous External abort on translation table walk or hardware update of translation table, level -1."
  | 0b010100 => .ok "Synchronous External abort on translation table walk or hardware update of translation table, level 0."
  | 0b010101 => .ok "Synchronous External abort on translation table walk or hardware update of translation table, level 1."
  | 0b010110 => .ok "Synchronous External abort on translation table walk or hardware update of translation table, level 2."
  | 0b010111 => .ok "Synchronous External abort on translation table walk or hardware update of translation table, level 3."
  | 0b011000 => .ok "Synchronous parity or ECC error on memory access, not on translation table walk."
  | 0b011011 => .ok "Synchronous parity or ECC error on memory access on translation table walk or hardware update of translation table, level -1."
  | 0b011100 => .ok "Synchronous parity or ECC error on memory access on translation table walk or hardware update of translation table, level 0."
  | 0b011101 => .ok "Synchronous parity or ECC error on memory access on translation table walk or hardware update of translation table, level 1."
  | 0b011110 => .ok "Synchronous parity or ECC error on memory access on translation table walk or hardware update of translation table, level 2."
  | 0b011111 => .ok "Synchronous parity or ECC error on memory access on translation table walk or hardware update of translation table, level 3."
  | 0b100001 => .ok "Alignment fault."
  | 0b101001 => .ok "Address size fault, level -1."
  | 0b101011 => .ok "Translation fault, level -1."
  | 0b110000 => .ok "TLB conflict abort."
  | 0b110001 => .ok "Unsupported atomic hardware update fault."
  | 0b110100 => .ok "IMPLEMENTATION DEFINED fault (Lockdown)."
  | 0b110101 => .ok "IMPLEMENTATION DEFINED fault (Unsupported Exclusive or Atomic access)."
  | _ => .error (.err (.InvalidFsc fsc))

/-- `describe_set` from `src/esr/abort.rs`. -/
def describe_set (set : Nat) : DR String :=
  match set with
  | 0b00 => .ok "Recoverable state (UER)"
  | 0b10 => .ok "Uncontainable (UC)"
  | 0b11 => .ok "Restartable state (UEO)"
  | _ => .error (.err (.InvalidSet set))

def describe_isv (isv : Bool) : String :=
  if isv then "Valid instruction syndrome" else "No valid instruction syndrome"

def describe_sf (sf : Bool) : String :=
  if sf then "64-bit wide register" else "32-bit wide register"

def describe_ar (ar : Bool) : String :=
  if ar then "Acquire/release semantics" else "No acquire/release semantics"

def describe_fnv (fnv : Bool) : String :=
  if fnv then "FAR is not valid, it holds an unknown value" else "FAR is valid"

def describe_wnr (wnr : Bool) : String :=
  if wnr then "Abort caused by writing to memory" else "Abort caused by reading from memory"

/-- The `match sas.value` over `SyndromeAccessSize` in `decode_iss_data_abort`,
composed with the enum's `Display` instance; the `_ => unreachable!()` arm is
the panic outcome. -/
def sas_description (sas : Nat) : DR String :=
  match sas with
  | 0b00 => .ok "byte"
  | 0b01 => .ok "halfword"
  | 0b10 => .ok "word"
  | 0b11 => .ok "doubleword"
  | _ => .error .panic

/-- `decode_iss_instruction_abort` from `src/esr/abort.rs`. -/
def decode_iss_instruction_abort (iss : Nat) : DR (List FieldInfo) := do
  let res0a ← (FieldInfo.get iss "RES0" (some "Reserved") 13 25).check_res0
  let fnv ← (FieldInfo.get_bit iss "FnV" (some "FAR not Valid") 10).describe_bit describe_fnv
  let ea := FieldInfo.get_bit iss "EA" (some "External abort type") 9
  let res0b ← (FieldInfo.get_bit iss "RES0" (some "Reserved") 8).check_res0
  let s1ptw := FieldInfo.get_bit iss "S1PTW" (some "Stage-1 translation table walk") 7
  let res0c ← (FieldInfo.get_bit iss "RES0" (some "Reserved") 6).check_res0
  let ifsc ← (FieldInfo.get iss "IFSC" (some "Instruction Fault Status Code") 0 6).describe
    describe_fsc
  let set ← if ifsc.value = 0b010000 then
      (FieldInfo.get iss "SET" (some "Synchronous Error Type") 11 13).describe describe_set
    else
      pure (FieldInfo.get iss "RES0" (some "Reserved") 11 13)
  pure [res0a, set, fnv, ea, res0b, s1ptw, res0c, ifsc]

/-- `decode_iss_data_abort` from `src/esr/abort.rs`. -/
def decode_iss_data_abort (iss : Nat) : DR (List FieldInfo) := do
  let isv ← (FieldInfo.get_bit iss "ISV" (some "Instruction Syndrome Valid") 24).describe_bit
    describe_isv
  let isvb ← isv.as_bit
  let intruction_syndrome_fields ←
    if isvb then do
      let sas := FieldInfo.get iss "SAS" (some "Syndrome Access Size") 22 24
      let sas_value ← sas_description sas.value
      let sas := sas.with_description sas_value
      let sse := FieldInfo.get_bit iss "SSE" (some "Syndrome Sign Extend") 21
      let srt := FieldInfo.get iss "SRT" (some "Syndrome Register Transfer") 16 21
      let sf ← (FieldInfo.get_bit iss "SF" (some "Sixty-Four") 15).describe_bit describe_sf
      let ar ← (FieldInfo.get_bit iss "AR" (some "Acquire/Release") 14).describe_bit describe_ar
      pure [sas, sse, srt, sf, ar]
    else do
      let res0 ← (FieldInfo.get iss "RES0" (some "Reserved") 14 24).check_res0
      pure [res0]
  let vncr := FieldInfo.get_bit iss "VNCR" none 13
  let fnv ← (FieldInfo.get_bit iss "FnV" (some "FAR not Valid") 10).describe_bit describe_fnv
  let ea := FieldInfo.get_bit iss "EA" (some "External abort type") 9
  let cm := FieldInfo.get_bit iss "CM" (some "Cache Maintenance") 8
  let s1ptw := FieldInfo.get_bit iss "S1PTW" (some "Stage-1 translation table walk") 7
  let wnr ← (FieldInfo.get_bit iss "WnR" (some "Write not Read") 6).describe_bit describe_wnr
  let dfsc ← (FieldInfo.get iss "DFSC" (some "Data Fault Status Code") 0 6).describe describe_fsc
  let set ← if dfsc.value = 0b010000 then
      (FieldInfo.get iss "SET" (some "Synchronous Error Type") 11 13).describe describe_set
    else
      pure (FieldInfo.get iss "RES0" (some "Reserved") 11 13)
  pure ([isv] ++ intruction_syndrome_fields ++ [vncr, set, fnv, ea, cm, s1ptw, wnr, dfsc])

/-! ### Invariants of the produced fields -/

/-- A field as produced by an ISS sub-decoder: its value is the extraction
of its declared bit range from `parent`, the range lies inside the parent
width `pw`, and it has no further subfields. -/
def FlatOk (parent pw : Nat) (f : FieldInfo) : Prop :=
  f.value = extract parent f.start (f.start + f.width) ∧
  f.start + f.width ≤ pw ∧ f.subfields = []

/-- A field named `RES0` produced by a successful decode is zero, except for
the SET-position reserved field (ISS bits `[11, 13)`) of the two abort
decoders, which is extracted but never validated. -/
def Res0Ok (f : FieldInfo) : Prop :=
  f.name = "RES0" → f.value = 0 ∨ (f.start = 11 ∧ f.width = 2)

/-- Postcondition of every ISS sub-decoder: no panic, never an `InvalidEc`
error, and on success all fields are faithful flat extractions of `iss`. -/
def SubOk (iss : Nat) : DR (List FieldInfo) → Prop
  | .error .panic => False
  | .error (.err e) => ∀ n, e ≠ .InvalidEc n
  | .ok fs => ∀ f ∈ fs, FlatOk iss 25 f ∧ Res0Ok f

/-- A failure that is neither a panic nor an `InvalidEc`. -/
def Benign : Fail → Prop
  | .panic => False
  | .err e => ∀ n, e ≠ .InvalidEc n

theorem SubOk_of_benign (iss : Nat) {e : Fail} (h : Benign e) : SubOk iss (.error e) := by
  cases e with
  | panic => exact h.elim
  | err e => exact h

theorem benign_fsc {n : Nat} {e : Fail} (h : describe_fsc n = .error e) : Benign e := by
  unfold describe_fsc at h
  split at h
  all_goals try exact Except.noConfusion h
  all_goals injection h with h2
  all_goals subst h2
  all_goals intro m hm
  all_goals exact DecodeError.noConfusion hm

theorem benign_set {n : Nat} {e : Fail} (h : describe_set n = .error e) : Benign e := by
  unfold describe_set at h
  split at h
  all_goals try exact Except.noConfusion h
  all_goals injection h with h2
  all_goals subst h2
  all_goals intro m hm
  all_goals exact DecodeError.noConfusion hm

theorem subOk_instruction_abort (iss : Nat) : SubOk iss (decode_iss_instruction_abort iss) := by
  unfold decode_iss_instruction_abort
  simp only [FieldInfo.get_bit_eq, FieldInfo.get_eq, FieldInfo.describe_bit_mk1,
    FieldInfo.as_bit_mk1, FieldInfo.check_res0, FieldInfo.describe, FieldInfo.value_mk,
    FieldInfo.with_description, DR_bind_ok, DR_bind_error, DR_pure]
  repeat' (first | split | simp only [DR_bind_def, DR_bind_ok, DR_bind_error, DR_pure])
  all_goals first
    | (simp_all [SubOk, FlatOk, Res0Ok]; done)
    | (apply SubOk_of_benign
       first
         | (apply benign_fsc; assumption)
         | (apply benign_set; assumption))

/-! ### `src/esr/common.rs` (modelled) -/

/-- `describe_cv`. Modelled from the spec: `esr/common.rs` is declared in
`esr/mod.rs` but absent from the sources; §4.3 says the CV bit is the
condition-code validity bit gating the interpretation of COND. The exact
wording of the two strings does not affect any claim. -/
def describe_cv (cv : Bool) : String :=
  if cv then "COND is valid" else "COND is not valid"

/-! ### `src/esr/mod.rs` helpers -/

/-- `describe_il` from `src/esr/mod.rs`. -/
def describe_il (il : Bool) : String :=
  if il then "32-bit instruction trapped" else "16-bit instruction trapped"

/-- `decode_iss_res0` from `src/esr/mod.rs`. -/
def decode_iss_res0 (iss : Nat) : DR (List FieldInfo) := do
  let res0 ← (FieldInfo.get iss "RES0" (some "Reserved") 0 25).check_res0
  let res0 := res0.with_description "ISS is RES0"
  pure [res0]

/-! ### `src/esr/wf.rs` -/

def describe_rv (rv : Bool) : String :=
  if rv then "RN is valid" else "RN is not valid"

/-- `describe_ti` from `src/esr/wf.rs`; the `_ => unreachable!()` arm is the
panic outcome. -/
def describe_ti (ti : Nat) : DR String :=
  match ti with
  | 0b00 => .ok "WFI trapped"
  | 0b01 => .ok "WFE trapped"
  | 0b10 => .ok "WFIT trapped"
  | 0b11 => .ok "WFET trapped"
  | _ => .error .panic

/-- `decode_iss_wf` from `src/esr/wf.rs`. -/
def decode_iss_wf (iss : Nat) : DR (List FieldInfo) := do
  let cv ← (FieldInfo.get_bit iss "CV" (some "Condition code valid") 24).describe_bit describe_cv
  let cond := FieldInfo.get iss "COND" (some "Condition code of the trapped instruction") 20 24
  let res0a ← (FieldInfo.get iss "RES0" (some "Reserved") 10 20).check_res0
  let rn := FieldInfo.get iss "RN" (some "Register Number") 5 10
  let res0b ← (FieldInfo.get iss "RES0" (some "Reserved") 3 5).check_res0
  let rv ← (FieldInfo.get_bit iss "RV" (some "Register Valid") 2).describe_bit describe_rv
  let ti ← (FieldInfo.get iss "TI" (some "Trapped Instruction") 0 2).describe describe_ti
  pure [cv, cond, res0a, rn, res0b, rv, ti]

/-! ### `src/esr/mcr.rs` -/

/-- `describe_direction` from `src/esr/mcr.rs` (renamed: three distinct
`describe_direction` functions exist in the sources). -/
def mcr_describe_direction (direction : Bool) : String :=
  if direction then "Read from system register (MRC or VMRS)"
  else "Write to system register (MCR)"

/-- `decode_iss_mcr` from `src/esr/mcr.rs`. -/
def decode_iss_mcr (iss : Nat) : DR (List FieldInfo) := do
  let cv ← (FieldInfo.get_bit iss "CV" (some "Condition code valid") 24).describe_bit describe_cv
  let cond := FieldInfo.get iss "COND" (some "Condition code of the trapped instruction") 20 24
  let opc2 := FieldInfo.get iss "Opc2" none 17 20
  let opc1 := FieldInfo.get iss "Opc1" none 14 17
  let crn := FieldInfo.get iss "CRn" none 10 14
  let rt := FieldInfo.get iss "Rt" none 5 10
  let crm := FieldInfo.get iss "CRm" none 1 5
  let direction ← (FieldInfo.get_bit iss "Direction"
    (some "Direction of the trapped instruction") 0).describe_bit mcr_describe_direction
  pure [cv, cond, opc2, opc1, crn, rt, crm, direction]

/-- `decode_iss_mcrr` from `src/esr/mcr.rs`. -/
def decode_iss_mcrr (iss : Nat) : DR (List FieldInfo) := do
  let cv ← (FieldInfo.get_bit iss "CV" (some "Condition code valid") 24).describe_bit describe_cv
  let cond := FieldInfo.get iss "COND" (some "Condition code of the trapped instruction") 20 24
  let opc1 := FieldInfo.get iss "Opc2" none 16 20
  let res0 ← (FieldInfo.get_bit iss "RES0" (some "Reserved") 15).check_res0
  let rt2 := FieldInfo.get iss "Rt2" none 10 15
  let rt := FieldInfo.get iss "Rt" none 5 10
  let crm := FieldInfo.get iss "CRm" none 1 5
  let direction ← (FieldInfo.get_bit iss "Direction"
    (some "Direction of the trapped instruction") 0).describe_bit mcr_describe_direction
  pure [cv, cond, opc1, res0, rt2, rt, crm, direction]

/-! ### `src/esr/ldc.rs` -/

def describe_offset (offset : Bool) : String :=
  if offset then "Add offset" else "Subtract offset"

/-- `describe_am` from `src/esr/ldc.rs`. -/
def describe_am (am : Nat) : DR String :=
  match am with
  | 0b000 => .ok "Immediate unindexed"
  | 0b001 => .ok "Immediate post-indexed"
  | 0b010 => .ok "Immediate offset"
  | 0b011 => .ok "Immediate pre-indexed"
  | 0b100 => .ok "Reserved for trapped STR or T32 LDC"
  | 0b110 => .ok "Reserved for trapped STC"
  | _ => .error (.err (.InvalidAm am))

/-- `describe_direction` from `src/esr/ldc.rs` (renamed). -/
def ldc_describe_direction (direction : Bool) : String :=
  if direction then "Read from memory (LDC)" else "Write to memory (STC)"

/-- `decode_iss_ldc` from `src/esr/ldc.rs`. -/
def decode_iss_ldc (iss : Nat) : DR (List FieldInfo) := do
  let cv ← (FieldInfo.get_bit iss "CV" (some "Condition code valid") 24).describe_bit describe_cv
  let cond := FieldInfo.get iss "COND" (some "Condition code of the trapped instruction") 20 24
  let imm8 := FieldInfo.get iss "imm8" (some "Immediate value of the trapped instruction") 12 20
  let res0 ← (FieldInfo.get iss "RES0" (some "Reserved") 10 12).check_res0
  let rn := FieldInfo.get iss "Rn"
    (some "General-purpose register number of the trapped instruction") 5 10
  let offset ← (FieldInfo.get_bit iss "Offset"
    (some "Whether the offset is added or subtracted") 4).describe_bit describe_offset
  let am ← (FieldInfo.get iss "AM" (some "Addressing Mode") 1 4).describe describe_am
  let direction ← (FieldInfo.get_bit iss "Direction"
    (some "Direction of the trapped instruction") 0).describe_bit ldc_describe_direction
  pure [cv, cond, imm8, res0, rn, offset, am, direction]

/-! ### `src/esr/sve.rs` -/

/-- `decode_iss_sve` from `src/esr/sve.rs`. -/
def decode_iss_sve (iss : Nat) : DR (List FieldInfo) := do
  let cv ← (FieldInfo.get_bit iss "CV" (some "Condition code valid") 24).describe_bit describe_cv
  let cond := FieldInfo.get iss "COND" (some "Condition code of the trapped instruction") 20 24
  let res0 ← (FieldInfo.get iss "RES0" (some "Reserved") 0 20).check_res0
  pure [cv, cond, res0]

/-! ### `src/esr/ld64b.rs` -/

/-- `describe_iss_ld64b` from `src/esr/ld64b.rs`. -/
def describe_iss_ld64b (iss : Nat) : DR String :=
  match iss with
  | 0b00 => .ok "ST64BV trapped"
  | 0b01 => .ok "ST64BV0 trapped"
  | 0b10 => .ok "LD64B or ST64B trapped"
  | _ => .error (.err (.InvalidLd64bIss iss))

/-- `decode_iss_ld64b` from `src/esr/ld64b.rs`. -/
def decode_iss_ld64b (iss : Nat) : DR (List FieldInfo) := do
  let iss ← (FieldInfo.get iss "ISS" none 0 25).describe describe_iss_ld64b
  pure [iss]

/-! ### `src/esr/bti.rs` -/

/-- `decode_iss_bti` from `src/esr/bti.rs`. -/
def decode_iss_bti (iss : Nat) : DR (List FieldInfo) := do
  let res0 ← (FieldInfo.get iss "RES0" (some "Reserved") 2 25).check_res0
  let btype := FieldInfo.get iss "BTYPE" (some "PSTATE.BTYPE value") 0 2
  pure [res0, btype]

/-! ### `src/esr/hvc.rs` (modelled) -/

/-- `decode_iss_hvc`. Modelled from the spec: `esr/hvc.rs` is declared in
`esr/mod.rs` but absent from the sources, and the spec gives no layout for
the SVC/HVC/SMC ISS beyond being a per-class decoder producing fields
extracted from the ISS; modelled as returning the immediate field of the
trapped instruction with no validation. -/
def decode_iss_hvc (iss : Nat) : DR (List FieldInfo) := do
  let imm16 := FieldInfo.get iss "imm16" (some "Value of the immediate field") 0 16
  pure [imm16]

/-! ### `src/esr/pauth.rs` -/

def describe_instruction_or_data (instruction_or_data : Bool) : String :=
  if instruction_or_data then "Data Key" else "Instruction Key"

def describe_a_or_b (a_or_b : Bool) : String :=
  if a_or_b then "B Key" else "A Key"

/-- `decode_iss_pauth` from `src/esr/pauth.rs`. -/
def decode_iss_pauth (iss : Nat) : DR (List FieldInfo) := do
  let res0 ← (FieldInfo.get iss "RES0" (some "Reserved") 2 25).check_res0
  let instruction_or_data ← (FieldInfo.get_bit iss "IorD"
    (some "Instruction key or Data key") 1).describe_bit describe_instruction_or_data
  let a_or_b ← (FieldInfo.get_bit iss "AorB" (some "A key or B key") 0).describe_bit
    describe_a_or_b
  pure [res0, instruction_or_data, a_or_b]

/-! ### `src/esr/fp.rs` -/

def describe_tfv (tfv : Bool) : String :=
  if tfv then
    "One or more floating-point exceptions occurred; IDF, IXF, UFF, OFF, DZF and IOF hold information about what."
  else "IDF, IXF, UFF, OFF, DZF and IOF do not hold valid information."

def describe_idf (idf : Bool) : String :=
  if idf then "Input denormal floating-point exception occurred."
  else "Input denormal floating-point exception did not occur."

def describe_ixf (ixf : Bool) : String :=
  if ixf then "Inexact floating-point exception occurred."
  else "Inexact floating-point exception did not occur."

def describe_uff (uff : Bool) : String :=
  if uff then "Underflow floating-point exception occurred."
  else "Underflow floating-point exception did not occur."

def describe_off (off : Bool) : String :=
  if off then "Overflow floating-point exception occurred."
  else "Overflow floating-point exception did not occur."

def describe_dzf (dzf : Bool) : String :=
  if dzf then "Divide by Zero floating-point exception occurred."
  else "Divide by Zero floating-point exception did not occur."

def describe_iof (iof : Bool) : String :=
  if iof then "Invalid Operation floating-point exception occurred."
  else "Invalid Operation floating-point exception did not occur."

/-- `decode_iss_fp` from `src/esr/fp.rs`. -/
def decode_iss_fp (iss : Nat) : DR (List FieldInfo) := do
  let res0a ← (FieldInfo.get_bit iss "RES0" (some "Reserved") 24).check_res0
  let tfv ← (FieldInfo.get_bit iss "TFV" (some "Trapped Fault Valid") 23).describe_bit
    describe_tfv
  let res0b ← (FieldInfo.get iss "RES0" (some "Reserved") 11 23).check_res0
  let vecitr := FieldInfo.get iss "VECITR" (some "RES1 or UNKNOWN") 8 11
  let idf ← (FieldInfo.get_bit iss "IDF" (some "Input Denormal") 7).describe_bit describe_idf
  let res0c ← (FieldInfo.get iss "RES0" (some "Reserved") 5 7).check_res0
  let ixf ← (FieldInfo.get_bit iss "IXF" (some "Inexact") 4).describe_bit describe_ixf
  let uff ← (FieldInfo.get_bit iss "UFF" (some "Underflow") 3).describe_bit describe_uff
  let off ← (FieldInfo.get_bit iss "OFF" (some "Overflow") 2).describe_bit describe_off
  let dzf ← (FieldInfo.get_bit iss "DZF" (some "Divide by Zero") 1).describe_bit describe_dzf
  let iof ← (FieldInfo.get_bit iss "IOF" (some "Invalid Operation") 0).describe_bit describe_iof
  pure [res0a, tfv, res0b, vecitr, idf, res0c, ixf, uff, off, dzf, iof]

/-! ### `src/esr/serror.rs` -/

def describe_ids (ids : Bool) : String :=
  if ids then "The rest of the ISS is encoded in an implementation-defined format"
  else "The rest of the ISS is encoded according to the platform"

def describe_iesb (iesb : Bool) : String :=
  if iesb then
    "The SError interrupt was synchronized by the implicit error synchronization event and taken immediately."
  else
    "The SError interrupt was not synchronized by the implicit error synchronization event or not taken immediately."

/-- `describe_aet` from `src/esr/serror.rs`. Note the `0x110` (not `0b110`)
literal, reproduced faithfully from the source. -/
def describe_aet (aet : Nat) : DR String :=
  match aet with
  | 0b000 => .ok "Uncontainable (UC)"
  | 0b001 => .ok "Unrecoverable state (UEU)"
  | 0b010 => .ok "Restartable state (UEO)"
  | 0b011 => .ok "Recoverable state (UER)"
  | 0x110 => .ok "Corrected (CE)"
  | _ => .error (.err (.InvalidAet aet))

/-- `describe_dfsc` from `src/esr/serror.rs` (renamed: distinct from the
abort-module fault-status table). -/
def serror_describe_dfsc (dfsc : Nat) : DR String :=
  match dfsc with
  | 0b000000 => .ok "Uncategorized error"
  | 0b010001 => .ok "Asynchronous SError interrupt"
  | _ => .error (.err (.InvalidFsc dfsc))

/-- `decode_iss_serror` from `src/esr/serror.rs`. -/
def decode_iss_serror (iss : Nat) : DR (List FieldInfo) := do
  let ids ← (FieldInfo.get_bit iss "IDS" (some "Implementation Defined Syndrome") 24).describe_bit
    describe_ids
  let idsb ← ids.as_bit
  let platform_fields ←
    if idsb then do
      let impdef := FieldInfo.get iss "IMPDEF" (some "Implementation defined") 0 24
      pure [impdef]
    else do
      let dfsc ← (FieldInfo.get iss "DFSC" (some "Data Fault Status Code") 0 6).describe
        serror_describe_dfsc
      let res0a ← (FieldInfo.get iss "RES0" (some "Reserved") 14 24).check_res0
      let iesb ← if dfsc.value = 0b010001 then
          (FieldInfo.get_bit iss "IESB"
            (some "Implicit Error Synchronisation event") 13).describe_bit describe_iesb
        else
          (FieldInfo.get_bit iss "RES0" (some "Reserved for this DFSC value") 13).check_res0
      let aet ← (FieldInfo.get iss "AET" (some "Asynchronous Error Type") 10 13).describe
        describe_aet
      let ea := FieldInfo.get_bit iss "EA" (some "External Abort type") 9
      let res0b ← (FieldInfo.get iss "RES0" (some "Reserved") 6 9).check_res0
      pure [res0a, iesb, aet, ea, res0b, dfsc]
  pure ([ids] ++ platform_fields)

/-! ### `src/breakpoint.rs` -/

/-- `describe_fsc` from `src/breakpoint.rs` (renamed: distinct from the
abort-module fault-status table). -/
def breakpoint_describe_fsc (fsc : Nat) : DR String :=
  match fsc with
  | 0b100010 => .ok "Debug exception"
  | _ => .error (.err (.InvalidFsc fsc))

/-- `describe_isv` from `src/breakpoint.rs` (renamed). -/
def step_describe_isv (isv : Bool) : String :=
  if isv then "EX bit is valid" else "EX bit is RES0"

def describe_ex (ex : Bool) : String :=
  if ex then "A Load-Exclusive instruction was stepped"
  else "Some instruction other than a Load-Exclusive was stepped"

/-- `describe_wnr` from `src/breakpoint.rs` (renamed). -/
def watchpoint_describe_wnr (wnr : Bool) : String :=
  if wnr then "Watchpoint caused by writing to memory"
  else "Watchpoint caused by reading from memory"

/-- `decode_iss_breakpoint_vector_catch` from `src/breakpoint.rs`. -/
def decode_iss_breakpoint_vector_catch (iss : Nat) : DR (List FieldInfo) := do
  let res0 ← (FieldInfo.get iss "RES0" (some "Reserved") 6 25).check_res0
  let ifsc ← (FieldInfo.get iss "IFSC" (some "Instruction Fault Status Code") 0 6).describe
    breakpoint_describe_fsc
  pure [res0, ifsc]

/-- `decode_iss_software_step` from `src/breakpoint.rs`. -/
def decode_iss_software_step (iss : Nat) : DR (List FieldInfo) := do
  let isv ← (FieldInfo.get_bit iss "ISV" (some "Instruction Syndrome Valid") 24).describe_bit
    step_describe_isv
  let res0 ← (FieldInfo.get iss "RES0" (some "Reserved") 7 24).check_res0
  let isvb ← isv.as_bit
  let ex ← if isvb then
      (FieldInfo.get_bit iss "EX" (some "Exclusive operation") 6).describe_bit describe_ex
    else
      (FieldInfo.get_bit iss "RES0" (some "Reserved because ISV is false") 6).check_res0
  let ifsc ← (FieldInfo.get iss "IFSC" (some "Instruction Fault Status Code") 0 6).describe
    breakpoint_describe_fsc
  pure [isv, res0, ex, ifsc]

/-- `decode_iss_watchpoint` from `src/breakpoint.rs`. -/
def decode_iss_watchpoint (iss : Nat) : DR (List FieldInfo) := do
  let res0a ← (FieldInfo.get iss "RES0" (some "Reserved") 15 25).check_res0
  let res0b ← (FieldInfo.get_bit iss "RES0" (some "Reserved") 14).check_res0
  let vncr := FieldInfo.get_bit iss "VNCR" none 13
  let res0c ← (FieldInfo.get iss "RES0" (some "Reserved") 9 13).check_res0
  let cm := FieldInfo.get_bit iss "CM" (some "Cache Maintenance") 8
  let res0d ← (FieldInfo.get_bit iss "RES0" (some "Reserved") 7).check_res0
  let wnr ← (FieldInfo.get_bit iss "WnR" (some "Write not Read") 6).describe_bit
    watchpoint_describe_wnr
  let dfsc ← (FieldInfo.get iss "DFSC" (some "Data Fault Status Code") 0 6).describe
    breakpoint_describe_fsc
  pure [res0a, res0b, vncr, res0c, cm, res0d, wnr, dfsc]

/-- `decode_iss_breakpoint` from `src/breakpoint.rs`. -/
def decode_iss_breakpoint (iss : Nat) : DR (List FieldInfo) := do
  let res0 ← (FieldInfo.get iss "RES0" (some "Reserved") 16 25).check_res0
  let comment := FieldInfo.get iss "Comment"
    (some "Instruction comment field or immediate field") 0 16
  pure [res0, comment]

/-! ### `src/msr.rs` -/

/-- `describe_direction` from `src/msr.rs` (renamed). -/
def msr_describe_direction (direction : Bool) : String :=
  if direction then "Read from system register (MRS)" else "Write to system register (MSR)"

/-- `sysreg_name` from `src/msr.rs`: the static system-register name table,
keyed on `(op0, crn, op1, crm, op2)` exactly as in the source. -/
def sysreg_name (op0 op1 op2 crn crm : Nat) : String :=
  match op0, crn, op1, crm, op2 with
  | 3, 1, 0, 0, 1 => "ACTLR_EL1"
  | 3, 1, 4, 0, 1 => "ACTLR_EL2"
  | 3, 1, 6, 0, 1 => "ACTLR_EL3"
  | 3, 0, 1, 0, 7 => "AIDR_EL1"
  | 3, 5, 0, 1, 0 => "AFSR0_EL1"
  | 3, 5, 4, 1, 0 => "AFSR0_EL2"
  | 3, 5, 6, 1, 0 => "AFSR0_EL3"
  | 3, 5, 0, 1, 1 => "AFSR1_EL1"
  | 3, 5, 4, 1, 1 => "AFSR1_EL2"
  | 3, 5, 6, 1, 1 => "AFSR1_EL3"
  | 3, 10, 0, 3, 0 => "AMAIR_EL1"
  | 3, 10, 4, 3, 0 => "AMAIR_EL2"
  | 3, 10, 6, 3, 0 => "AMAIR_EL3"
  | 3, 0, 1, 0, 0 => "CCSIDR_EL1"
  | 3, 0, 1, 0, 1 => "CLIDR_EL1"
  | 3, 1, 0, 0, 2 => "CPACR_EL1"
  | 3, 1, 4, 1, 2 => "CPTR_EL2"
  | 3, 1, 6, 1, 2 => "CPTR_EL3"
  | 3, 0, 2, 0, 0 => "CSSELR_EL1"
  | 3, 0, 3, 0, 1 => "CTR_EL0"
  | 3, 12, 0, 1, 1 => "DISR_EL1"
  | 3, 5, 0, 3, 0 => "ERRIDR_EL1"
  | 3, 5, 0, 3, 1 => "ERRSELR_EL1"
  | 3, 5, 0, 4, 3 => "ERXADDR_EL1"
  | 3, 5, 0, 4, 1 => "ERXCTLR_EL1"
  | 3, 5, 0, 4, 0 => "ERXFR_EL1"
  | 3, 5, 0, 5, 0 => "ERXMISC0_EL1"
  | 3, 5, 0, 5, 1 => "ERXMISC1_EL1"
  | 3, 5, 0, 4, 2 => "ERXSTATUS_EL1"
  | 3, 5, 0, 2, 0 => "ESR_EL1"
  | 3, 5, 4, 2, 0 => "ESR_EL2"
  | 3, 5, 6, 2, 0 => "ESR_EL3"
  | 3, 1, 4, 1, 7 => "HACR_EL2"
  | 3, 1, 4, 1, 0 => "HCR_EL2"
  | 3, 0, 0, 1, 3 => "ID_AFR0_EL1"
  | 3, 0, 0, 1, 2 => "ID_DFR0_EL1"
  | 3, 0, 0, 2, 0 => "ID_ISAR0_EL1"
  | 3, 0, 0, 2, 1 => "ID_ISAR1_EL1"
  | 3, 0, 0, 2, 2 => "ID_ISAR2_EL1"
  | 3, 0, 0, 2, 3 => "ID_ISAR3_EL1"
  | 3, 0, 0, 2, 4 => "ID_ISAR4_EL1"
  | 3, 0, 0, 2, 5 => "ID_ISAR5_EL1"
  | 3, 0, 0, 2, 7 => "ID_ISAR6_EL1"
  | 3, 0, 0, 1, 4 => "ID_MMFR0_EL1"
  | 3, 0, 0, 1, 5 => "ID_MMFR1_EL1"
  | 3, 0, 0, 1, 6 => "ID_MMFR2_EL1"
  | 3, 0, 0, 1, 7 => "ID_MMFR3_EL1"
  | 3, 0, 0, 2, 6 => "ID_MMFR4_EL1"
  | 3, 0, 0, 1, 0 => "ID_PFR0_EL1"
  | 3, 0, 0, 1, 1 => "ID_PFR1_EL1"
  | 3, 0, 0, 3, 4 => "ID_PFR2_EL1"
  | 3, 0, 0, 5, 0 => "ID_AA64DFR0_EL1"
  | 3, 0, 0, 6, 0 => "ID_AA64ISAR0_EL1"
  | 3, 0, 0, 6, 1 => "ID_AA64ISAR1_EL1"
  | 3, 0, 0, 7, 0 => "ID_AA64MMFR0_EL1"
  | 3, 0, 0, 7, 1 => "ID_AA64MMFR1_EL1"
  | 3, 0, 0, 7, 2 => "ID_AA64MMFR2_EL1"
  | 3, 0, 0, 4, 0 => "ID_AA64PFR0_EL1"
  | 3, 5, 4, 0, 1 => "IFSR32_EL2"
  | 3, 10, 0, 4, 3 => "LORC_EL1"
  | 3, 10, 0, 4, 7 => "LORID_EL1"
  | 3, 10, 0, 4, 2 => "LORN_EL1"
  | 3, 1, 6, 3, 1 => "MDCR_EL3"
  | 3, 0, 0, 0, 0 => "MIDR_EL1"
  | 3, 0, 0, 0, 5 => "MPIDR_EL1"
  | 3, 7, 0, 4, 0 => "PAR_EL1"
  | 3, 12, 6, 0, 1 => "RVBAR_EL3"
  | 3, 0, 0, 0, 6 => "REVIDR_EL1"
  | 3, 1, 0, 0, 0 => "SCTLR_EL1"
  | 3, 1, 6, 0, 0 => "SCTLR_EL3"
  | 3, 2, 0, 0, 2 => "TCR_EL1"
  | 3, 2, 4, 0, 2 => "TCR_EL2"
  | 3, 2, 6, 0, 2 => "TCR_EL3"
  | 3, 2, 0, 0, 0 => "TTBR0_EL1"
  | 3, 2, 4, 0, 0 => "TTBR0_EL2"
  | 3, 2, 6, 0, 0 => "TTBR0_EL3"
  | 3, 2, 0, 0, 1 => "TTBR1_EL1"
  | 3, 2, 4, 0, 1 => "TTBR1_EL2"
  | 3, 12, 4, 1, 1 => "VDISR_EL2"
  | 3, 5, 4, 2, 3 => "VSESR_EL2"
  | 3, 2, 4, 1, 2 => "VTCR_EL2"
  | 3, 2, 4, 1, 0 => "VTTBR_EL2"
  | 3, 5, 5, 1, 0 => "AFSR0_EL12"
  | 3, 5, 5, 1, 1 => "AFSR1_EL12"
  | 3, 10, 5, 3, 0 => "AMAIR_EL12"
  | 3, 14, 3, 0, 0 => "CNTFRQ_EL0"
  | 3, 14, 4, 1, 0 => "CNTHCTL_EL2"
  | 3, 14, 4, 2, 1 => "CNTHP_CTL_EL2"
  | 3, 14, 4, 2, 2 => "CNTHP_CVAL_EL2"
  | 3, 14, 4, 2, 0 => "CNTHP_TVAL_EL2"
  | 3, 14, 4, 3, 1 => "CNTHV_CTL_EL2"
  | 3, 14, 4, 3, 2 => "CNTHV_CVAL_EL2"
  | 3, 14, 4, 3, 0 => "CNTHV_TVAL_EL2"
  | 3, 14, 0, 1, 0 => "CNTKCTL_EL1"
  | 3, 14, 5, 1, 0 => "CNTKCTL_EL12"
  | 3, 14, 3, 2, 1 => "CNTP_CTL_EL0"
  | 3, 14, 5, 2, 1 => "CNTP_CTL_EL02"
  | 3, 14, 3, 2, 2 => "CNTP_CVAL_EL0"
  | 3, 14, 5, 2, 2 => "CNTP_CVAL_EL02"
  | 3, 14, 3, 2, 0 => "CNTP_TVAL_EL0"
  | 3, 14, 5, 2, 0 => "CNTP_TVAL_EL02"
  | 3, 14, 3, 0, 1 => "CNTPCT_EL0"
  | 3, 14, 7, 2, 1 => "CNTPS_CTL_EL1"
  | 3, 14, 7, 2, 2 => "CNTPS_CVAL_EL1"
  | 3, 14, 7, 2, 0 => "CNTPS_TVAL_EL1"
  | 3, 14, 3, 3, 1 => "CNTV_CTL_EL0"
  | 3, 14, 5, 3, 1 => "CNTV_CTL_EL02"
  | 3, 14, 3, 3, 2 => "CNTV_CVAL_EL0"
  | 3, 14, 5, 3, 2 => "CNTV_CVAL_EL02"
  | 3, 14, 3, 3, 0 => "CNTV_TVAL_EL0"
  | 3, 14, 5, 3, 0 => "CNTV_TVAL_EL02"
  | 3, 14, 3, 0, 2 => "CNTVCT_EL0"
  | 3, 14, 4, 0, 3 => "CNTVOFF_EL2"
  | 3, 13, 0, 0, 1 => "CONTEXTIDR_EL1"
  | 3, 13, 5, 0, 1 => "CONTEXTIDR_EL12"
  | 3, 13, 4, 0, 1 => "CONTEXTIDR_EL2"
  | 3, 1, 5, 0, 2 => "CPACR_EL12"
  | 3, 3, 4, 0, 0 => "DACR32_EL2"
  | 3, 5, 5, 2, 0 => "ESR_EL12"
  | 3, 6, 0, 0, 0 => "FAR_EL1"
  | 3, 6, 5, 0, 0 => "FAR_EL12"
  | 3, 6, 4, 0, 0 => "FAR_EL2"
  | 3, 6, 6, 0, 0 => "FAR_EL3"
  | 3, 5, 4, 3, 0 => "FPEXC32_EL2"
  | 3, 6, 4, 0, 4 => "HPFAR_EL2"
  | 3, 1, 4, 1, 3 => "HSTR_EL2"
  | 3, 0, 0, 5, 4 => "ID_AA64AFR0_EL1"
  | 3, 0, 0, 5, 5 => "ID_AA64AFR1_EL1"
  | 3, 0, 0, 5, 1 => "ID_AA64DFR1_EL1"
  | 3, 0, 0, 4, 1 => "ID_AA64PFR1_EL1"
  | 3, 12, 0, 1, 0 => "ISR_EL1"
  | 3, 10, 0, 4, 1 => "LOREA_EL1"
  | 3, 10, 0, 4, 0 => "LORSA_EL1"
  | 3, 10, 0, 2, 0 => "MAIR_EL1"
  | 3, 10, 5, 2, 0 => "MAIR_EL12"
  | 3, 10, 4, 2, 0 => "MAIR_EL2"
  | 3, 10, 6, 2, 0 => "MAIR_EL3"
  | 3, 1, 4, 1, 1 => "MDCR_EL2"
  | 3, 0, 0, 3, 0 => "MVFR0_EL1"
  | 3, 0, 0, 3, 1 => "MVFR1_EL1"
  | 3, 0, 0, 3, 2 => "MVFR2_EL1"
  | 3, 12, 6, 0, 2 => "RMR_EL3"
  | 3, 1, 6, 1, 0 => "SCR_EL3"
  | 3, 1, 5, 0, 0 => "SCTLR_EL12"
  | 3, 1, 4, 0, 0 => "SCTLR_EL2"
  | 3, 1, 6, 1, 1 => "SDER32_EL3"
  | 3, 2, 5, 0, 2 => "TCR_EL12"
  | 3, 13, 3, 0, 2 => "TPIDR_EL0"
  | 3, 13, 0, 0, 4 => "TPIDR_EL1"
  | 3, 13, 4, 0, 2 => "TPIDR_EL2"
  | 3, 13, 6, 0, 2 => "TPIDR_EL3"
  | 3, 13, 3, 0, 3 => "TPIDRRO_EL0"
  | 3, 2, 5, 0, 0 => "TTBR0_EL12"
  | 3, 2, 5, 0, 1 => "TTBR1_EL12"
  | 3, 12, 0, 0, 0 => "VBAR_EL1"
  | 3, 12, 5, 0, 0 => "VBAR_EL12"
  | 3, 12, 4, 0, 0 => "VBAR_EL2"
  | 3, 12, 6, 0, 0 => "VBAR_EL3"
  | 3, 0, 4, 0, 5 => "VMPIDR_EL2"
  | 3, 0, 4, 0, 0 => "VPIDR_EL2"
  | _, _, _, _, _ => "unknown"

/-- `decode_iss_msr` from `src/msr.rs`: returns the subfields and the
synthesized disassembly-like description. -/
def decode_iss_msr (iss : Nat) : DR (List FieldInfo × Option String) := do
  let res0 ← (FieldInfo.get iss "RES0" (some "Reserved") 22 25).check_res0
  let op0 := FieldInfo.get iss "Op0" none 20 22
  let op2 := FieldInfo.get iss "Op2" none 17 20
  let op1 := FieldInfo.get iss "Op1" none 14 17
  let crn := FieldInfo.get iss "CRn" none 10 14
  let rt := FieldInfo.get iss "Rt"
    (some "General-purpose register number of the trapped instruction") 5 10
  let crm := FieldInfo.get iss "CRm" none 1 5
  let direction ← (FieldInfo.get_bit iss "Direction"
    (some "Direction of the trapped instruction") 0).describe_bit msr_describe_direction
  let name := sysreg_name op0.value op1.value op2.value crn.value crm.value
  let description := if direction.value = 0 then
      "MSR " ++ name ++ ", x" ++ toString rt.value
    else
      "MRS x" ++ toString rt.value ++ ", " ++ name
  pure ([res0, op0, op2, op1, crn, rt, crm, direction], some description)

/-! ### `src/midr.rs` -/

/-- `describe_implementer` from `src/midr.rs`. -/
def describe_implementer (implementer : Nat) : DR String :=
  .ok (match implementer with
    | 0x00 => "Reserved for software use"
    | 0xC0 => "Ampere Computing"
    | 0x41 => "Arm Limited"
    | 0x42 => "Broadcom Corporation"
    | 0x43 => "Cavium Inc."
    | 0x44 => "Digital Equipment Corporation"
    | 0x46 => "Fujitsu Ltd."
    | 0x49 => "Infineon Technologies AG"
    | 0x4D => "Motorola or Freescale Semiconductor Inc."
    | 0x4E => "NVIDIA Corporation"
    | 0x50 => "Applied Micro Circuits Corporation"
    | 0x51 => "Qualcomm Inc."
    | 0x56 => "Marvell International Ltd."
    | 0x69 => "Intel Corporation"
    | _ => "Unknown")

/-- `describe_architecture` from `src/midr.rs`. -/
def describe_architecture (architecture : Nat) : DR String :=
  .ok (match architecture with
    | 0b0001 => "Armv4"
    | 0b0010 => "Armv4T"
    | 0b0011 => "Armv5"
    | 0b0100 => "Armv5T"
    | 0b0101 => "Armv5TE"
    | 0b0110 => "Armv5TEJ"
    | 0b0111 => "Armv6"
    | 0b1111 => "Architectural features are individually identified"
    | _ => "Reserved")

/-- `decode_midr` from `src/midr.rs`. -/
def decode_midr (midr : Nat) : DR (List FieldInfo) := do
  let res0 ← (FieldInfo.get midr "RES0" (some "Reserved") 32 64).check_res0
  let implementer ← (FieldInfo.get midr "Implementer" none 24 32).describe describe_implementer
  let variant := FieldInfo.get midr "Variant" none 20 24
  let architecture ← (FieldInfo.get midr "Architecture" none 16 20).describe
    describe_architecture
  let part_num := FieldInfo.get midr "PartNum" (some "Part number") 4 16
  let revision := FieldInfo.get midr "Revision" none 0 4
  pure [res0, implementer, variant, architecture, part_num, revision]

/-! ### `src/smccc/ffa.rs` -/

/-- `ffa_32_function_id` from `src/smccc/ffa.rs`, with the `FFA_*` constants
inlined. -/
def ffa_32_function_id (function : Nat) : Option String :=
  match function with
  | 0x60 => some "FFA_ERROR_32"
  | 0x61 => some "FFA_SUCCESS_32"
  | 0x62 => some "FFA_INTERRUPT_32"
  | 0x63 => some "FFA_VERSION_32"
  | 0x64 => some "FFA_FEATURES_32"
  | 0x65 => some "FFA_RX_RELEASE_32"
  | 0x66 => some "FFA_RXTX_MAP_32"
  | 0x67 => some "FFA_RXTX_UNMAP_32"
  | 0x68 => some "FFA_PARTITION_INFO_GET_32"
  | 0x69 => some "FFA_ID_GET_32"
  | 0x6A => some "FFA_MSG_POLL_32"
  | 0x6B => some "FFA_MSG_WAIT_32"
  | 0x6C => some "FFA_YIELD_32"
  | 0x6D => some "FFA_RUN_32"
  | 0x6E => some "FFA_MSG_SEND_32"
  | 0x6F => some "FFA_MSG_SEND_DIRECT_REQ_32"
  | 0x70 => some "FFA_MSG_SEND_DIRECT_RESP_32"
  | 0x71 => some "FFA_MEM_DONATE_32"
  | 0x72 => some "FFA_MEM_LEND_32"
  | 0x73 => some "FFA_MEM_SHARE_32"
  | 0x74 => some "FFA_MEM_RETRIEVE_REQ_32"
  | 0x75 => some "FFA_MEM_RETRIEVE_RESP_32"
  | 0x76 => some "FFA_MEM_RELINQUISH_32"
  | 0x77 => some "FFA_MEM_RECLAIM_32"
  | 0x78 => some "FFA_MEM_OP_PAUSE"
  | 0x79 => some "FFA_MEM_OP_RESUME"
  | 0x7A => some "FFA_MEM_FRAG_RX_32"
  | 0x7B => some "FFA_MEM_FRAG_TX_32"
  | 0x7C => some "FFA_NORMAL_WORLD_RESUME"
  | _ => none

/-- `ffa_64_function_id` from `src/smccc/ffa.rs`. -/
def ffa_64_function_id (function : Nat) : Option String :=
  match function with
  | 0x66 => some "FFA_RXTX_MAP_64"
  | 0x6F => some "FFA_MSG_SEND_DIRECT_REQ_64"
  | 0x70 => some "FFA_MSG_SEND_DIRECT_RESP_64"
  | 0x71 => some "FFA_MEM_DONATE_64"
  | 0x72 => some "FFA_MEM_LEND_64"
  | 0x73 => some "FFA_MEM_SHARE_64"
  | 0x74 => some "FFA_MEM_RETRIEVE_REQ_64"
  | _ => none

/-! ### `src/smccc/common.rs` -/

/-- `reserved_fids` from `src/smccc/common.rs`; the Rust range pattern
`0xFF00..=0xFFFF` becomes an explicit two-sided test. -/
def reserved_fids (service : Nat) : String :=
  if 0xFF00 ≤ service ∧ service ≤ 0xFFFF then "Reserved for future expansion" else ""

/-- `smccc_general32_queries` from `src/smccc/common.rs`. -/
def smccc_general32_queries (service : Nat) : String :=
  match service with
  | 0xFF00 => "Call Count Query, deprecated from SMCCCv1.2"
  | 0xFF01 => "Call UUID Query"
  | 0xFF03 => "Revision Query"
  | _ => reserved_fids service

def describe_general32_queries (service : Nat) : DR String :=
  .ok (smccc_general32_queries service)

def describe_general64_queries (service : Nat) : DR String :=
  .ok (reserved_fids service)

/-- `decode_common_service` from `src/smccc/common.rs`. -/
def decode_common_service (smccc conv : Nat) : DR FieldInfo :=
  if conv = 0 then
    (FieldInfo.get smccc "Function Number" none 0 16).describe describe_general32_queries
  else
    (FieldInfo.get smccc "Function Number" none 0 16).describe describe_general64_queries

/-! ### `src/smccc/arm.rs` -/

/-- `describe_arm32_service` from `src/smccc/arm.rs`. -/
def describe_arm32_service (service : Nat) : DR String :=
  .ok (match service with
    | 0x0000 => "SMCCC_VERSION"
    | 0x0001 => "SMCCC_ARCH_FEATURES"
    | 0x0002 => "SMCCC_ARCH_SOC_ID"
    | 0x3FFF => "SMCCC_ARCH_WORKAROUND_3"
    | 0x7FFF => "SMCCC_ARCH_WORKAROUND_2"
    | 0x8000 => "SMCCC_ARCH_WORKAROUND_1"
    | 0xFF00 => "Call Count Query, deprecated from SMCCCv1.2"
    | 0xFF01 => "Call UUID Query, deprecated from SMCCCv1.2"
    | 0xFF03 => "Revision Query, deprecated from SMCCCv1.2"
    | _ => reserved_fids service)

/-- `describe_arm64_service` from `src/smccc/arm.rs`. -/
def describe_arm64_service (service : Nat) : DR String :=
  .ok (reserved_fids service)

/-- `decode_arm_service` from `src/smccc/arm.rs`. -/
def decode_arm_service (smccc conv : Nat) : DR FieldInfo :=
  if conv = 0 then
    (FieldInfo.get smccc "Function Number" none 0 16).describe describe_arm32_service
  else
    (FieldInfo.get smccc "Function Number" none 0 16).describe describe_arm64_service

/-! ### `src/smccc/hyp.rs` -/

/-- `describe_hyp64_service` from `src/smccc/hyp.rs`. -/
def describe_hyp64_service (service : Nat) : DR String :=
  .ok (if 0x20 ≤ service ∧ service ≤ 0x3F then "PV Time 64-bit calls" else "")

/-- `decode_hyp_service` from `src/smccc/hyp.rs`. -/
def decode_hyp_service (smccc conv : Nat) : DR FieldInfo :=
  if conv = 0 then
    (FieldInfo.get smccc "Function Number" none 0 16).describe describe_general32_queries
  else
    (FieldInfo.get smccc "Function Number" none 0 16).describe describe_hyp64_service

/-! ### `src/smccc/secure.rs` -/

/-- `secure_service` from `src/smccc/secure.rs`, range patterns expanded. -/
def secure_service (service : Nat) : String :=
  if service ≤ 0x01F then "PSCI Call (Power Secure Control Interface)"
  else if 0x020 ≤ service ∧ service ≤ 0x03F then
    "SDEI Call (Software Delegated Exception Interface)"
  else if 0x040 ≤ service ∧ service ≤ 0x04F then "MM Call (Management Mode)"
  else if 0x050 ≤ service ∧ service ≤ 0x05F then "TRNG Call"
  else if 0x060 ≤ service ∧ service ≤ 0x0EF then "Unknown FF-A Call"
  else if 0x0F0 ≤ service ∧ service ≤ 0x10F then "Errata Call"
  else if 0x150 ≤ service ∧ service ≤ 0x1CF then "CCA Call"
  else ""

/-- `describe_secure32_service` from `src/smccc/secure.rs`. -/
def describe_secure32_service (service : Nat) : DR String :=
  match ffa_32_function_id service with
  | some ffa_call => .ok ffa_call
  | none =>
    .ok (if service ≤ 0x1CF then secure_service service else smccc_general32_queries service)

/-- `describe_secure64_service` from `src/smccc/secure.rs`. -/
def describe_secure64_service (service : Nat) : DR String :=
  match ffa_64_function_id service with
  | some ffa_call => .ok ffa_call
  | none => .ok (secure_service service)

/-- `decode_secure_service` from `src/smccc/secure.rs`. -/
def decode_secure_service (smccc conv : Nat) : DR FieldInfo :=
  if conv = 0 then
    (FieldInfo.get smccc "Function Number" none 0 16).describe describe_secure32_service
  else
    (FieldInfo.get smccc "Function Number" none 0 16).describe describe_secure64_service

/-! ### `src/smccc/tapp.rs` (modelled) -/

/-- `decode_tapp_service`. Modelled from the spec: `smccc/tapp.rs` is
imported by `src/smccc.rs` but absent from the sources; §4.3 says each
vendor namespace decoder produces a function-number field with its own
name table. Modelled as the function-number field with a constant
description; this does not affect any claim below. -/
def decode_tapp_service (smccc _conv : Nat) : DR FieldInfo :=
  (FieldInfo.get smccc "Function Number" none 0 16).describe
    (fun _ => .ok "Trusted Application Call")

/-! ### `src/smccc.rs` -/

/-- `describe_yield_service` from `src/smccc.rs`, range patterns expanded. -/
def describe_yield_service (service : Nat) : DR String :=
  .ok (if service ≤ 0x0100FFFF then
      "Reserved for existing APIs (in use by the existing Armv7 devices)"
    else if 0x02000000 ≤ service ∧ service ≤ 0x1FFFFFFF then "Trusted OS Yielding Calls"
    else if 0x20000000 ≤ service ∧ service ≤ 0x7FFFFFFF then
      "Reserved for future expansion of Trusted OS Yielding Calls"
    else "Unknown")

/-- `describe_call` from `src/smccc.rs`. -/
def describe_call (call : Nat) : DR String :=
  .ok (match call with
    | 0x00 => "Yielding Call"
    | 0x01 => "Fast Call"
    | _ => "Unknown")

/-- `describe_convention` from `src/smccc.rs`. -/
def describe_convention (conv : Nat) : DR String :=
  .ok (match conv with
    | 0x00 => "SMC32/HVC32"
    | 0x01 => "SMC64/HVC64"
    | _ => "Unknown")

/-- `describe_service` from `src/smccc.rs`, range patterns expanded. -/
def describe_service (service : Nat) : DR String :=
  .ok (if service = 0x00 then "Arm Architecture Call"
    else if service = 0x01 then "CPU Service Call"
    else if service = 0x02 then "SiP Service Call"
    else if service = 0x03 then "OEM Service Call"
    else if service = 0x04 then "Standard Secure Service Call"
    else if service = 0x05 then "Standard Hypervisor Service Call"
    else if service = 0x06 then "Vendor Specific Hypervisor Service Call"
    else if 0x07 ≤ service ∧ service ≤ 0x2F then "Reserved for future use"
    else if 0x30 ≤ service ∧ service ≤ 0x31 then "Trusted Application Call"
    else if 0x32 ≤ service ∧ service ≤ 0x3F then "Trusted OS Call"
    else "Unknown")

/-- `parse_fastcall` from `src/smccc.rs`. -/
def parse_fastcall (smccc : Nat) : DR (List FieldInfo) := do
  let call_convention ← (FieldInfo.get smccc "Call Convention" none 30 31).describe
    describe_convention
  let service_call ← (FieldInfo.get smccc "Service Call" none 24 30).describe describe_service
  let mbz := FieldInfo.get smccc "MBZ" (some "Some legacy Armv7 set this to 1") 17 24
  let sve := FieldInfo.get smccc "SVE live state"
    (some "No live state[1] From SMCCCv1.3, before SMCCCv1.3 MBZ") 16 17
  let function_number ←
    if service_call.value = 0x00 then decode_arm_service smccc call_convention.value
    else if service_call.value = 0x04 then decode_secure_service smccc call_convention.value
    else if service_call.value = 0x05 then decode_hyp_service smccc call_convention.value
    else if 0x30 ≤ service_call.value ∧ service_call.value ≤ 0x31 then
      decode_tapp_service smccc call_convention.value
    else decode_common_service smccc call_convention.value
  pure [call_convention, service_call, mbz, sve, function_number]

/-- `parse_yieldcall` from `src/smccc.rs`. -/
def parse_yieldcall (smccc : Nat) : DR (List FieldInfo) := do
  let yield_type ← (FieldInfo.get smccc "Service Type" none 0 31).describe
    describe_yield_service
  pure [yield_type]

/-- `decode_smccc` from `src/smccc.rs`. -/
def decode_smccc (smccc : Nat) : DR (List FieldInfo) := do
  let call_type ← (FieldInfo.get smccc "Call Type" none 31 32).describe describe_call
  let result ← if call_type.value = 1 then parse_fastcall smccc else parse_yieldcall smccc
  pure ([call_type] ++ result)

/-! ### `src/esr/mod.rs`: the top-level ESR decoder -/

/-- The struct-update `FieldInfo { description, subfields, ..iss }` used at
the end of `decode` in `src/esr/mod.rs`. -/
def FieldInfo.with_parts : FieldInfo → Option String → List FieldInfo → FieldInfo
  | FieldInfo.mk n l s w v _ _, d, subs => FieldInfo.mk n l s w v d subs

/-- `decode` from `src/esr/mod.rs`: dispatch on the Exception Class. -/
def decode (esr : Nat) : DR (List FieldInfo) := do
  let res0 ← (FieldInfo.get esr "RES0" (some "Reserved") 37 64).check_res0
  let iss2 := FieldInfo.get esr "ISS2" none 32 37
  let ec := FieldInfo.get esr "EC" (some "Exception Class") 26 32
  let il ← (FieldInfo.get_bit esr "IL" (some "Instruction Length") 25).describe_bit describe_il
  let iss := FieldInfo.get esr "ISS" (some "Instruction Specific Syndrome") 0 25
  let (class_, iss_subfields, iss_description) ←
    match ec.value with
    | 0b000000 => ((decode_iss_res0 iss.value).map
        (fun s => ("Unknown reason", s, (none : Option String))))
    | 0b000001 => ((decode_iss_wf iss.value).map
        (fun s => ("Wrapped WF* instruction execution", s, none)))
    | 0b000011 => ((decode_iss_mcr iss.value).map
        (fun s => ("Trapped MCR or MRC access with coproc=0b1111", s, none)))
    | 0b000100 => ((decode_iss_mcrr iss.value).map
        (fun s => ("Trapped MCRR or MRRC access with coproc=0b1111", s, none)))
    | 0b000101 => ((decode_iss_mcr iss.value).map
        (fun s => ("Trapped MCR or MRC access with coproc=0b1110", s, none)))
    | 0b000110 => ((decode_iss_ldc iss.value).map
        (fun s => ("Trapped LDC or STC access", s, none)))
    | 0b000111 => ((decode_iss_sve iss.value).map
        (fun s => ("Trapped access to SVE, Advanced SIMD or floating point", s, none)))
    | 0b001010 => ((decode_iss_ld64b iss.value).map
        (fun s =>
          ("Trapped execution of an LD64B, ST64B, ST64BV, or ST64BV0 instruction", s, none)))
    | 0b001100 => ((decode_iss_mcrr iss.value).map
        (fun s => ("Trapped MRRC access with (coproc==0b1110)", s, none)))
    | 0b001101 => ((decode_iss_bti iss.value).map
        (fun s => ("Branch Target Exception", s, none)))
    | 0b001110 => ((decode_iss_res0 iss.value).map
        (fun s => ("Illegal Execution state", s, none)))
    | 0b010001 => ((decode_iss_hvc iss.value).map
        (fun s => ("SVC instruction execution in AArch32 state", s, none)))
    | 0b010101 => ((decode_iss_hvc iss.value).map
        (fun s => ("SVC instruction execution in AArch64 state", s, none)))
    | 0b010110 => ((decode_iss_hvc iss.value).map
        (fun s => ("HVC instruction execution in AArch64 state", s, none)))
    | 0b010111 => ((decode_iss_hvc iss.value).map
        (fun s => ("SMC instruction execution in AArch64 state", s, none)))
    | 0b011000 => ((decode_iss_msr iss.value).map
        (fun p =>
          ("Trapped MSR, MRS or System instruction execution in AArch64 state", p.1, p.2)))
    | 0b011001 => ((decode_iss_res0 iss.value).map
        (fun s =>
          ("Access to SVE functionality trapped as a result of CPACR_EL1.ZEN, CPTR_EL2.ZEN, CPTR_EL2.TZ, or CPTR_EL3.EZ",
            s, none)))
    | 0b011100 => ((decode_iss_pauth iss.value).map
        (fun s =>
          ("Exception from a Pointer Authentication instruction authentication failure", s,
            none)))
    | 0b100000 => ((decode_iss_instruction_abort iss.value).map
        (fun s => ("Instruction Abort from a lower Exception level", s, none)))
    | 0b100001 => ((decode_iss_instruction_abort iss.value).map
        (fun s => ("Instruction Abort taken without a change in Exception level", s, none)))
    | 0b100010 => ((decode_iss_res0 iss.value).map
        (fun s => ("PC alignment fault exception", s, none)))
    | 0b100100 => ((decode_iss_data_abort iss.value).map
        (fun s => ("Data Abort from a lower Exception level", s, none)))
    | 0b100101 => ((decode_iss_data_abort iss.value).map
        (fun s => ("Data Abort taken without a change in Exception level", s, none)))
    | 0b100110 => ((decode_iss_res0 iss.value).map
        (fun s => ("SP alignment fault exception", s, none)))
    | 0b101000 => ((decode_iss_fp iss.value).map
        (fun s => ("Trapped floating-point exception taken from AArch32 state", s, none)))
    | 0b101100 => ((decode_iss_fp iss.value).map
        (fun s => ("Trapped floating-point exception taken from AArch64 state", s, none)))
    | 0b101111 => ((decode_iss_serror iss.value).map
        (fun s => ("SError interrupt", s, none)))
    | 0b110000 => ((decode_iss_breakpoint_vector_catch iss.value).map
        (fun s => ("Breakpoint exception from a lower Exception level", s, none)))
    | 0b110001 => ((decode_iss_breakpoint_vector_catch iss.value).map
        (fun s => ("Breakpoint exception taken without a change in Exception level", s, none)))
    | 0b110010 => ((decode_iss_software_step iss.value).map
        (fun s => ("Software Step exception from a lower Exception level", s, none)))
    | 0b110011 => ((decode_iss_software_step iss.value).map
        (fun s =>
          ("Software Step exception taken without a change in Exception level", s, none)))
    | 0b110100 => ((decode_iss_watchpoint iss.value).map
        (fun s => ("Watchpoint exception from a lower Exception level", s, none)))
    | 0b110101 => ((decode_iss_watchpoint iss.value).map
        (fun s => ("Watchpoint exception taken without a change in Exception level", s, none)))
    | 0b111000 => ((decode_iss_breakpoint iss.value).map
        (fun s => ("BKPT instruction execution in AArch32 state", s, none)))
    | 0b111100 => ((decode_iss_breakpoint iss.value).map
        (fun s => ("BRK instruction execution in AArch64 state", s, none)))
    | _ => .error (.err (.InvalidEc ec.value))
  let iss := iss.with_parts iss_description iss_subfields
  let ec := ec.with_description class_
  pure [res0, iss2, ec, il, iss]

/-- The set of Exception Class values with a dispatch arm in `decode`
(every non-default pattern of the `match ec.value`). -/
def definedEc (ec : Nat) : Bool :=
  decide (ec ∈
    [0b000000, 0b000001, 0b000011, 0b000100, 0b000101, 0b000110, 0b000111,
     0b001010, 0b001100, 0b001101, 0b001110, 0b010001, 0b010101, 0b010110,
     0b010111, 0b011000, 0b011001, 0b011100, 0b100000, 0b100001, 0b100010,
     0b100100, 0b100101, 0b100110, 0b101000, 0b101100, 0b101111, 0b110000,
     0b110001, 0b110010, 0b110011, 0b110100, 0b110101, 0b111000, 0b111100])

/-! ### Per-sub-decoder postconditions -/

theorem benign_am {n : Nat} {e : Fail} (h : describe_am n = .error e) : Benign e := by
  unfold describe_am at h
  split at h
  all_goals try exact Except.noConfusion h
  all_goals injection h with h2
  all_goals subst h2
  all_goals intro m hm
  all_goals exact DecodeError.noConfusion hm

theorem benign_ld64b {n : Nat} {e : Fail} (h : describe_iss_ld64b n = .error e) : Benign e := by
  unfold describe_iss_ld64b at h
  split at h
  all_goals try exact Except.noConfusion h
  all_goals injection h with h2
  all_goals subst h2
  all_goals intro m hm
  all_goals exact DecodeError.noConfusion hm

theorem benign_aet {n : Nat} {e : Fail} (h : describe_aet n = .error e) : Benign e := by
  unfold describe_aet at h
  split at h
  all_goals try exact Except.noConfusion h
  all_goals injection h with h2
  all_goals subst h2
  all_goals intro m hm
  all_goals exact DecodeError.noConfusion hm

theorem benign_serror_dfsc {n : Nat} {e : Fail} (h : serror_describe_dfsc n = .error e) :
    Benign e := by
  unfold serror_describe_dfsc at h
  split at h
  all_goals try exact Except.noConfusion h
  all_goals injection h with h2
  all_goals subst h2
  all_goals intro m hm
  all_goals exact DecodeError.noConfusion hm

theorem benign_breakpoint_fsc {n : Nat} {e : Fail} (h : breakpoint_describe_fsc n = .error e) :
    Benign e := by
  unfold breakpoint_describe_fsc at h
  split at h
  all_goals try exact Except.noConfusion h
  all_goals injection h with h2
  all_goals subst h2
  all_goals intro m hm
  all_goals exact DecodeError.noConfusion hm

/-- The `unreachable!()` arm of the SAS match can never be taken: SAS is a
two-bit field. -/
theorem subOk_no_sas (iss : Nat) {e : Fail}
    (h : sas_description (extract iss 22 24) = .error e) : SubOk iss (.error e) := by
  exfalso
  have hlt : extract iss 22 24 < 4 := by simpa using extract_lt iss 22 24
  interval_cases hx : (extract iss 22 24) <;> simp [sas_description] at h

/-- The `unreachable!()` arm of `describe_ti` can never be taken: TI is a
two-bit field. -/
theorem subOk_no_ti (iss : Nat) {e : Fail}
    (h : describe_ti (extract iss 0 2) = .error e) : SubOk iss (.error e) := by
  exfalso
  have hlt : extract iss 0 2 < 4 := by simpa using extract_lt iss 0 2
  interval_cases hx : (extract iss 0 2) <;> simp [describe_ti] at h

theorem subOk_res0 (iss : Nat) : SubOk iss (decode_iss_res0 iss) := by
  unfold decode_iss_res0
  simp only [FieldInfo.get_bit_eq, FieldInfo.get_eq, FieldInfo.describe_bit_mk1,
    FieldInfo.as_bit_mk1, FieldInfo.check_res0, FieldInfo.describe, FieldInfo.value_mk,
    FieldInfo.with_description, DR_bind_ok, DR_bind_error, DR_pure]
  repeat' (first | split | simp only [DR_bind_def, DR_bind_ok, DR_bind_error, DR_pure])
  all_goals first
    | (simp_all [SubOk, FlatOk, Res0Ok]; done)
    | (apply SubOk_of_benign
       first
         | (apply benign_fsc; assumption)
         | (apply benign_set; assumption))

theorem subOk_wf (iss : Nat) : SubOk iss (decode_iss_wf iss) := by
  unfold decode_iss_wf
  simp only [FieldInfo.get_bit_eq, FieldInfo.get_eq, FieldInfo.describe_bit_mk1,
    FieldInfo.as_bit_mk1, FieldInfo.check_res0, FieldInfo.describe, FieldInfo.value_mk,
    FieldInfo.with_description, DR_bind_ok, DR_bind_error, DR_pure]
  repeat' (first | split | simp only [DR_bind_def, DR_bind_ok, DR_bind_error, DR_pure])
  all_goals first
    | (simp_all [SubOk, FlatOk, Res0Ok]; done)
    | (apply subOk_no_ti; assumption)

theorem subOk_mcr (iss : Nat) : SubOk iss (decode_iss_mcr iss) := by
  unfold decode_iss_mcr
  simp only [FieldInfo.get_bit_eq, FieldInfo.get_eq, FieldInfo.describe_bit_mk1,
    FieldInfo.as_bit_mk1, FieldInfo.check_res0, FieldInfo.describe, FieldInfo.value_mk,
    FieldInfo.with_description, DR_bind_ok, DR_bind_error, DR_pure]
  repeat' (first | split | simp only [DR_bind_def, DR_bind_ok, DR_bind_error, DR_pure])
  all_goals (simp_all [SubOk, FlatOk, Res0Ok]; done)

theorem subOk_mcrr (iss : Nat) : SubOk iss (decode_iss_mcrr iss) := by
  unfold decode_iss_mcrr
  simp only [FieldInfo.get_bit_eq, FieldInfo.get_eq, FieldInfo.describe_bit_mk1,
    FieldInfo.as_bit_mk1, FieldInfo.check_res0, FieldInfo.describe, FieldInfo.value_mk,
    FieldInfo.with_description, DR_bind_ok, DR_bind_error, DR_pure]
  repeat' (first | split | simp only [DR_bind_def, DR_bind_ok, DR_bind_error, DR_pure])
  all_goals (simp_all [SubOk, FlatOk, Res0Ok]; done)

theorem subOk_ldc (iss : Nat) : SubOk iss (decode_iss_ldc iss) := by
  unfold decode_iss_ldc
  simp only [FieldInfo.get_bit_eq, FieldInfo.get_eq, FieldInfo.describe_bit_mk1,
    FieldInfo.as_bit_mk1, FieldInfo.check_res0, FieldInfo.describe, FieldInfo.value_mk,
    FieldInfo.with_description, DR_bind_ok, DR_bind_error, DR_pure]
  repeat' (first | split | simp only [DR_bind_def, DR_bind_ok, DR_bind_error, DR_pure])
  all_goals first
    | (simp_all [SubOk, FlatOk, Res0Ok]; done)
    | (apply SubOk_of_benign
       first
         | (apply benign_am; assumption))

theorem subOk_sve (iss : Nat) : SubOk iss (decode_iss_sve iss) := by
  unfold decode_iss_sve
  simp only [FieldInfo.get_bit_eq, FieldInfo.get_eq, FieldInfo.describe_bit_mk1,
    FieldInfo.as_bit_mk1, FieldInfo.check_res0, FieldInfo.describe, FieldInfo.value_mk,
    FieldInfo.with_description, DR_bind_ok, DR_bind_error, DR_pure]
  repeat' (first | split | simp only [DR_bind_def, DR_bind_ok, DR_bind_error, DR_pure])
  all_goals (simp_all [SubOk, FlatOk, Res0Ok]; done)

theorem subOk_ld64b (iss : Nat) : SubOk iss (decode_iss_ld64b iss) := by
  unfold decode_iss_ld64b
  simp only [FieldInfo.get_bit_eq, FieldInfo.get_eq, FieldInfo.describe_bit_mk1,
    FieldInfo.as_bit_mk1, FieldInfo.check_res0, FieldInfo.describe, FieldInfo.value_mk,
    FieldInfo.with_description, DR_bind_ok, DR_bind_error, DR_pure]
  repeat' (first | split | simp only [DR_bind_def, DR_bind_ok, DR_bind_error, DR_pure])
  all_goals first
    | (simp_all [SubOk, FlatOk, Res0Ok]; done)
    | (apply SubOk_of_benign
       first
         | (apply benign_ld64b; assumption))

theorem subOk_bti (iss : Nat) : SubOk iss (decode_iss_bti iss) := by
  unfold decode_iss_bti
  simp only [FieldInfo.get_bit_eq, FieldInfo.get_eq, FieldInfo.describe_bit_mk1,
    FieldInfo.as_bit_mk1, FieldInfo.check_res0, FieldInfo.describe, FieldInfo.value_mk,
    FieldInfo.with_description, DR_bind_ok, DR_bind_error, DR_pure]
  repeat' (first | split | simp only [DR_bind_def, DR_bind_ok, DR_bind_error, DR_pure])
  all_goals (simp_all [SubOk, FlatOk, Res0Ok]; done)

theorem subOk_hvc (iss : Nat) : SubOk iss (decode_iss_hvc iss) := by
  unfold decode_iss_hvc
  simp only [FieldInfo.get_bit_eq, FieldInfo.get_eq, DR_bind_ok, DR_pure]
  simp [SubOk, FlatOk, Res0Ok]

theorem subOk_pauth (iss : Nat) : SubOk iss (decode_iss_pauth iss) := by
  unfold decode_iss_pauth
  simp only [FieldInfo.get_bit_eq, FieldInfo.get_eq, FieldInfo.describe_bit_mk1,
    FieldInfo.as_bit_mk1, FieldInfo.check_res0, FieldInfo.describe, FieldInfo.value_mk,
    FieldInfo.with_description, DR_bind_ok, DR_bind_error, DR_pure]
  repeat' (first | split | simp only [DR_bind_def, DR_bind_ok, DR_bind_error, DR_pure])
  all_goals (simp_all [SubOk, FlatOk, Res0Ok]; done)

theorem subOk_data_abort (iss : Nat) : SubOk iss (decode_iss_data_abort iss) := by
  unfold decode_iss_data_abort
  simp only [FieldInfo.get_bit_eq, FieldInfo.get_eq, FieldInfo.describe_bit_mk1,
    FieldInfo.as_bit_mk1, FieldInfo.check_res0, FieldInfo.describe, FieldInfo.value_mk,
    FieldInfo.with_description, DR_bind_ok, DR_bind_error, DR_pure]
  repeat' (first | split | simp only [DR_bind_def, DR_bind_ok, DR_bind_error, DR_pure])
  all_goals first
    | (simp_all [SubOk, FlatOk, Res0Ok]; done)
    | (apply subOk_no_sas; assumption)
    | (apply SubOk_of_benign
       first
         | (apply benign_fsc; assumption)
         | (apply benign_set; assumption))

theorem subOk_fp (iss : Nat) : SubOk iss (decode_iss_fp iss) := by
  unfold decode_iss_fp
  simp only [FieldInfo.get_bit_eq, FieldInfo.get_eq, FieldInfo.describe_bit_mk1,
    FieldInfo.as_bit_mk1, FieldInfo.check_res0, FieldInfo.describe, FieldInfo.value_mk,
    FieldInfo.with_description, DR_bind_ok, DR_bind_error, DR_pure]
  repeat' (first | split | simp only [DR_bind_def, DR_bind_ok, DR_bind_error, DR_pure])
  all_goals (simp_all [SubOk, FlatOk, Res0Ok]; done)

theorem subOk_serror (iss : Nat) : SubOk iss (decode_iss_serror iss) := by
  unfold decode_iss_serror
  simp only [FieldInfo.get_bit_eq, FieldInfo.get_eq, FieldInfo.describe_bit_mk1,
    FieldInfo.as_bit_mk1, FieldInfo.check_res0, FieldInfo.describe, FieldInfo.value_mk,
    FieldInfo.with_description, DR_bind_ok, DR_bind_error, DR_pure]
  repeat' (first | split | simp only [DR_bind_def, DR_bind_ok, DR_bind_error, DR_pure])
  all_goals first
    | (simp_all [SubOk, FlatOk, Res0Ok]; done)
    | (apply SubOk_of_benign
       first
         | (apply benign_aet; assumption)
         | (apply benign_serror_dfsc; assumption))

theorem subOk_breakpoint_vector_catch (iss : Nat) :
    SubOk iss (decode_iss_breakpoint_vector_catch iss) := by
  unfold decode_iss_breakpoint_vector_catch
  simp only [FieldInfo.get_bit_eq, FieldInfo.get_eq, FieldInfo.describe_bit_mk1,
    FieldInfo.as_bit_mk1, FieldInfo.check_res0, FieldInfo.describe, FieldInfo.value_mk,
    FieldInfo.with_description, DR_bind_ok, DR_bind_error, DR_pure]
  repeat' (first | split | simp only [DR_bind_def, DR_bind_ok, DR_bind_error, DR_pure])
  all_goals first
    | (simp_all [SubOk, FlatOk, Res0Ok]; done)
    | (apply SubOk_of_benign
       first
         | (apply benign_breakpoint_fsc; assumption))

theorem subOk_software_step (iss : Nat) : SubOk iss (decode_iss_software_step iss) := by
  unfold decode_iss_software_step
  simp only [FieldInfo.get_bit_eq, FieldInfo.get_eq, FieldInfo.describe_bit_mk1,
    FieldInfo.as_bit_mk1, FieldInfo.check_res0, FieldInfo.describe, FieldInfo.value_mk,
    FieldInfo.with_description, DR_bind_ok, DR_bind_error, DR_pure]
  repeat' (first | split | simp only [DR_bind_def, DR_bind_ok, DR_bind_error, DR_pure])
  all_goals first
    | (simp_all [SubOk, FlatOk, Res0Ok]; done)
    | (apply SubOk_of_benign
       first
         | (apply benign_breakpoint_fsc; assumption))

theorem subOk_watchpoint (iss : Nat) : SubOk iss (decode_iss_watchpoint iss) := by
  unfold decode_iss_watchpoint
  simp only [FieldInfo.get_bit_eq, FieldInfo.get_eq, FieldInfo.describe_bit_mk1,
    FieldInfo.as_bit_mk1, FieldInfo.check_res0, FieldInfo.describe, FieldInfo.value_mk,
    FieldInfo.with_description, DR_bind_ok, DR_bind_error, DR_pure]
  repeat' (first | split | simp only [DR_bind_def, DR_bind_ok, DR_bind_error, DR_pure])
  all_goals first
    | (simp_all [SubOk, FlatOk, Res0Ok]; done)
    | (apply SubOk_of_benign
       first
         | (apply benign_breakpoint_fsc; assumption))

theorem subOk_breakpoint (iss : Nat) : SubOk iss (decode_iss_breakpoint iss) := by
  unfold decode_iss_breakpoint
  simp only [FieldInfo.get_bit_eq, FieldInfo.get_eq, FieldInfo.describe_bit_mk1,
    FieldInfo.as_bit_mk1, FieldInfo.check_res0, FieldInfo.describe, FieldInfo.value_mk,
    FieldInfo.with_description, DR_bind_ok, DR_bind_error, DR_pure]
  repeat' (first | split | simp only [DR_bind_def, DR_bind_ok, DR_bind_error, DR_pure])
  all_goals (simp_all [SubOk, FlatOk, Res0Ok]; done)

/-- Postcondition of `decode_iss_msr` (which also returns a description). -/
def SubOkM (iss : Nat) : DR (List FieldInfo × Option String) → Prop
  | .error .panic => False
  | .error (.err e) => ∀ n, e ≠ .InvalidEc n
  | .ok p => ∀ f ∈ p.1, FlatOk iss 25 f ∧ Res0Ok f

theorem subOkM_msr (iss : Nat) : SubOkM iss (decode_iss_msr iss) := by
  unfold decode_iss_msr
  simp only [FieldInfo.get_bit_eq, FieldInfo.get_eq, FieldInfo.describe_bit_mk1,
    FieldInfo.as_bit_mk1, FieldInfo.check_res0, FieldInfo.describe, FieldInfo.value_mk,
    FieldInfo.with_description, DR_bind_ok, DR_bind_error, DR_pure]
  repeat' (first | split | simp only [DR_bind_def, DR_bind_ok, DR_bind_error, DR_pure])
  all_goals (simp_all [SubOkM, FlatOk, Res0Ok]; done)

/-! ### The master postcondition of `decode` -/

theorem DR_map_def {α β : Type} (x : DR α) (f : α → β) :
    x.map f = match x with
      | .ok a => .ok (f a)
      | .error e => .error e := by
  cases x <;> rfl

@[simp] theorem FieldInfo.with_parts_mk (n : String) (l : Option String) (s w v : Nat)
    (d0 : Option String) (s0 : List FieldInfo) (d : Option String) (subs : List FieldInfo) :
    (FieldInfo.mk n l s w v d0 s0).with_parts d subs = FieldInfo.mk n l s w v d subs := rfl

/-- Everything the claims need to know about a `decode` outcome: no panic;
an `InvalidEc` error determines the EC and only arises for an undefined EC
with the top reserved bits zero; a success has exactly the five top-level
fields, with the class description on the EC field and faithfully extracted
ISS subfields, and for the Data Abort and MSR classes the subfields are the
respective sub-decoder output. -/
def DecodeOk (esr : Nat) : DR (List FieldInfo) → Prop
  | .error .panic => False
  | .error (.err e) =>
      ∀ n, e = .InvalidEc n →
        n = extract esr 26 32 ∧ extract esr 37 64 = 0 ∧ definedEc n = false
  | .ok fs => ∃ cls d subs,
      fs = [FieldInfo.mk "RES0" (some "Reserved") 37 27 (extract esr 37 64) none [],
            FieldInfo.mk "ISS2" none 32 5 (extract esr 32 37) none [],
            FieldInfo.mk "EC" (some "Exception Class") 26 6 (extract esr 26 32) (some cls) [],
            FieldInfo.mk "IL" (some "Instruction Length") 25 1 (extract esr 25 26)
              (some (describe_il (extract esr 25 26 == 1))) [],
            FieldInfo.mk "ISS" (some "Instruction Specific Syndrome") 0 25 (extract esr 0 25)
              d subs] ∧
      extract esr 37 64 = 0 ∧ definedEc (extract esr 26 32) = true ∧
      (∀ f ∈ subs, FlatOk (extract esr 0 25) 25 f ∧ Res0Ok f) ∧
      ((extract esr 26 32 = 0b100100 ∨ extract esr 26 32 = 0b100101) →
        decode_iss_data_abort (extract esr 0 25) = .ok subs ∧ d = none) ∧
      (extract esr 26 32 = 0b011000 → decode_iss_msr (extract esr 0 25) = .ok (subs, d))

theorem DecodeOk_error_of_subOk (esr iss : Nat) {e : Fail} {r : DR (List FieldInfo)}
    (hr : r = .error e) (hs : SubOk iss r) : DecodeOk esr (.error e) := by
  subst hr
  cases e with
  | panic => exact hs.elim
  | err e0 => exact fun n hn => absurd hn (hs n)

theorem DecodeOk_error_of_subOkM (esr iss : Nat) {e : Fail}
    {r : DR (List FieldInfo × Option String)} (hr : r = .error e) (hs : SubOkM iss r) :
    DecodeOk esr (.error e) := by
  subst hr
  cases e with
  | panic => exact hs.elim
  | err e0 => exact fun n hn => absurd hn (hs n)

theorem DR_bind_ite {α β : Type} (c : Prop) [Decidable c] (x y : DR α) (k : α → DR β) :
    ((if c then x else y) >>= k) = if c then x >>= k else y >>= k := by
  split <;> rfl

theorem DecodeOk_error_of_subOk_err (esr iss : Nat) {e : Fail}
    (hs : SubOk iss (.error e)) : DecodeOk esr (.error e) := by
  cases e with
  | panic => exact hs.elim
  | err e0 => exact fun n hn => absurd hn (hs n)

theorem DecodeOk_error_of_subOkM_err (esr iss : Nat) {e : Fail}
    (hs : SubOkM iss (.error e)) : DecodeOk esr (.error e) := by
  cases e with
  | panic => exact hs.elim
  | err e0 => exact fun n hn => absurd hn (hs n)

set_option maxHeartbeats 2000000 in
theorem decode_ok (esr : Nat) : DecodeOk esr (decode esr) := by
  unfold decode
  simp only [FieldInfo.get_bit_eq, FieldInfo.get_eq, FieldInfo.describe_bit_mk1,
    FieldInfo.as_bit_mk1, FieldInfo.check_res0, FieldInfo.value_mk, FieldInfo.with_description,
    FieldInfo.with_parts_mk, DR_bind_ite]
  simp only [DR_bind_def, DR_map_def, DR_bind_ok, DR_bind_error, DR_pure]
  split
  · simp [DecodeOk]
  · rename_i h0
    split
    all_goals try
      (intro n hn
       injection hn with hn2
       subst hn2
       refine ⟨rfl, by omega, ?_⟩
       simp only [definedEc, decide_eq_false_iff_not, List.mem_cons, List.not_mem_nil]
       simp_all)
    all_goals rename_i hec
    all_goals split
    all_goals rename_i y heq
    all_goals split at heq
    all_goals try exact Except.noConfusion heq
    all_goals rename_i heq2
    all_goals injection heq with hinj
    all_goals subst hinj
    all_goals first
      | (refine ⟨_, _, _, rfl, by omega, by rw [hec]; decide, ?_, ?_, ?_⟩
         · first
             | (have hs := subOk_res0 (extract esr 0 25); rw [heq2] at hs; exact hs)
             | (have hs := subOk_wf (extract esr 0 25); rw [heq2] at hs; exact hs)
             | (have hs := subOk_mcr (extract esr 0 25); rw [heq2] at hs; exact hs)
             | (have hs := subOk_mcrr (extract esr 0 25); rw [heq2] at hs; exact hs)
             | (have hs := subOk_ldc (extract esr 0 25); rw [heq2] at hs; exact hs)
             | (have hs := subOk_sve (extract esr 0 25); rw [heq2] at hs; exact hs)
             | (have hs := subOk_ld64b (extract esr 0 25); rw [heq2] at hs; exact hs)
             | (have hs := subOk_bti (extract esr 0 25); rw [heq2] at hs; exact hs)
             | (have hs := subOk_hvc (extract esr 0 25); rw [heq2] at hs; exact hs)
             | (have hs := subOk_pauth (extract esr 0 25); rw [heq2] at hs; exact hs)
             | (have hs := subOk_instruction_abort (extract esr 0 25); rw [heq2] at hs;
                exact hs)
             | (have hs := subOk_data_abort (extract esr 0 25); rw [heq2] at hs; exact hs)
             | (have hs := subOk_fp (extract esr 0 25); rw [heq2] at hs; exact hs)
             | (have hs := subOk_serror (extract esr 0 25); rw [heq2] at hs; exact hs)
             | (have hs := subOk_breakpoint_vector_catch (extract esr 0 25); rw [heq2] at hs;
                exact hs)
             | (have hs := subOk_software_step (extract esr 0 25); rw [heq2] at hs; exact hs)
             | (have hs := subOk_watchpoint (extract esr 0 25); rw [heq2] at hs; exact hs)
             | (have hs := subOk_breakpoint (extract esr 0 25); rw [heq2] at hs; exact hs)
             | (have hs := subOkM_msr (extract esr 0 25); rw [heq2] at hs; exact hs)
         · first
             | (rintro (hOr | hOr) <;> omega)
             | (intro hOr; exact ⟨heq2, rfl⟩)
         · first
             | (intro hMsr; omega)
             | (intro hMsr; simpa using heq2))
      | (first
           | (have hs := subOk_res0 (extract esr 0 25)
              rw [heq2] at hs
              exact DecodeOk_error_of_subOk_err esr (extract esr 0 25) hs)
           | (have hs := subOk_wf (extract esr 0 25)
              rw [heq2] at hs
              exact DecodeOk_error_of_subOk_err esr (extract esr 0 25) hs)
           | (have hs := subOk_mcr (extract esr 0 25)
              rw [heq2] at hs
              exact DecodeOk_error_of_subOk_err esr (extract esr 0 25) hs)
           | (have hs := subOk_mcrr (extract esr 0 25)
              rw [heq2] at hs
              exact DecodeOk_error_of_subOk_err esr (extract esr 0 25) hs)
           | (have hs := subOk_ldc (extract esr 0 25)
              rw [heq2] at hs
              exact DecodeOk_error_of_subOk_err esr (extract esr 0 25) hs)
           | (have hs := subOk_sve (extract esr 0 25)
              rw [heq2] at hs
              exact DecodeOk_error_of_subOk_err esr (extract esr 0 25) hs)
           | (have hs := subOk_ld64b (extract esr 0 25)
              rw [heq2] at hs
              exact DecodeOk_error_of_subOk_err esr (extract esr 0 25) hs)
           | (have hs := subOk_bti (extract esr 0 25)
              rw [heq2] at hs
              exact DecodeOk_error_of_subOk_err esr (extract esr 0 25) hs)
           | (have hs := subOk_hvc (extract esr 0 25)
              rw [heq2] at hs
              exact DecodeOk_error_of_subOk_err esr (extract esr 0 25) hs)
           | (have hs := subOk_pauth (extract esr 0 25)
              rw [heq2] at hs
              exact DecodeOk_error_of_subOk_err esr (extract esr 0 25) hs)
           | (have hs := subOk_instruction_abort (extract esr 0 25)
              rw [heq2] at hs
              exact DecodeOk_error_of_subOk_err esr (extract esr 0 25) hs)
           | (have hs := subOk_data_abort (extract esr 0 25)
              rw [heq2] at hs
              exact DecodeOk_error_of_subOk_err esr (extract esr 0 25) hs)
           | (have hs := subOk_fp (extract esr 0 25)
              rw [heq2] at hs
              exact DecodeOk_error_of_subOk_err esr (extract esr 0 25) hs)
           | (have hs := subOk_serror (extract esr 0 25)
              rw [heq2] at hs
              exact DecodeOk_error_of_subOk_err esr (extract esr 0 25) hs)
           | (have hs := subOk_breakpoint_vector_catch (extract esr 0 25)
              rw [heq2] at hs
              exact DecodeOk_error_of_subOk_err esr (extract esr 0 25) hs)
           | (have hs := subOk_software_step (extract esr 0 25)
              rw [heq2] at hs
              exact DecodeOk_error_of_subOk_err esr (extract esr 0 25) hs)
           | (have hs := subOk_watchpoint (extract esr 0 25)
              rw [heq2] at hs
              exact DecodeOk_error_of_subOk_err esr (extract esr 0 25) hs)
           | (have hs := subOk_breakpoint (extract esr 0 25)
              rw [heq2] at hs
              exact DecodeOk_error_of_subOk_err esr (extract esr 0 25) hs)
           | (have hs := subOkM_msr (extract esr 0 25)
              rw [heq2] at hs
              exact DecodeOk_error_of_subOkM_err esr (extract esr 0 25) hs))

/-- An undefined EC with the top reserved bits zero yields `InvalidEc`. -/
theorem decode_invalid_ec (esr : Nat) (h0 : extract esr 37 64 = 0)
    (hd : definedEc (extract esr 26 32) = false) :
    decode esr = .error (.err (.InvalidEc (extract esr 26 32))) := by
  unfold decode
  simp only [FieldInfo.get_bit_eq, FieldInfo.get_eq, FieldInfo.describe_bit_mk1,
    FieldInfo.as_bit_mk1, FieldInfo.check_res0, FieldInfo.value_mk, FieldInfo.with_description,
    FieldInfo.with_parts_mk, DR_bind_ite]
  simp only [DR_bind_def, DR_map_def, DR_bind_ok, DR_bind_error, DR_pure]
  rw [if_neg (by omega)]
  split
  all_goals try rfl
  all_goals rename_i hec
  all_goals rw [hec] at hd
  all_goals exact absurd hd (by decide)

/-- Nonzero top reserved bits fail the whole ESR decode at once. -/
theorem decode_res0_fail (esr : Nat) (h : extract esr 37 64 ≠ 0) :
    decode esr = .error (.err (.InvalidRes0 (extract esr 37 64))) := by
  unfold decode
  simp only [FieldInfo.get_bit_eq, FieldInfo.get_eq, FieldInfo.describe_bit_mk1,
    FieldInfo.as_bit_mk1, FieldInfo.check_res0, FieldInfo.value_mk, FieldInfo.with_description,
    FieldInfo.with_parts_mk, DR_bind_ite]
  simp only [DR_bind_def, DR_map_def, DR_bind_ok, DR_bind_error, DR_pure]
  rw [if_pos h]

/-! ### MIDR and SMCCC postconditions -/

/-- Success postcondition for the flat decoders: every produced field is a
faithful extraction from the register, within the register width, with no
subfields; no outcome is a panic. -/
def TopFlatOk (reg pw : Nat) : DR (List FieldInfo) → Prop
  | .error .panic => False
  | .error (.err _) => True
  | .ok fs => ∀ f ∈ fs, FlatOk reg pw f

theorem topFlatOk_midr (v : Nat) : TopFlatOk v 64 (decode_midr v) := by
  unfold decode_midr
  simp only [FieldInfo.get_bit_eq, FieldInfo.get_eq, FieldInfo.describe_bit_mk1,
    FieldInfo.as_bit_mk1, FieldInfo.check_res0, FieldInfo.describe, FieldInfo.value_mk,
    FieldInfo.with_description, describe_implementer, describe_architecture, DR_bind_ite]
  simp only [DR_bind_def, DR_map_def, DR_bind_ok, DR_bind_error, DR_pure]
  split
  all_goals simp_all [TopFlatOk, FlatOk]

theorem describe_call_ok (n : Nat) : ∃ s, describe_call n = .ok s := ⟨_, rfl⟩

theorem describe_convention_ok (n : Nat) : ∃ s, describe_convention n = .ok s := ⟨_, rfl⟩

theorem describe_service_ok (n : Nat) : ∃ s, describe_service n = .ok s := ⟨_, rfl⟩

theorem describe_yield_ok (n : Nat) : ∃ s, describe_yield_service n = .ok s := ⟨_, rfl⟩

theorem describe_arm32_ok (n : Nat) : ∃ s, describe_arm32_service n = .ok s := ⟨_, rfl⟩

theorem describe_arm64_ok (n : Nat) : ∃ s, describe_arm64_service n = .ok s := ⟨_, rfl⟩

theorem describe_general32_ok (n : Nat) : ∃ s, describe_general32_queries n = .ok s := ⟨_, rfl⟩

theorem describe_general64_ok (n : Nat) : ∃ s, describe_general64_queries n = .ok s := ⟨_, rfl⟩

theorem describe_hyp64_ok (n : Nat) : ∃ s, describe_hyp64_service n = .ok s := ⟨_, rfl⟩

theorem describe_secure32_ok (n : Nat) : ∃ s, describe_secure32_service n = .ok s := by
  unfold describe_secure32_service
  cases h : ffa_32_function_id n <;> simp [h]

theorem describe_secure64_ok (n : Nat) : ∃ s, describe_secure64_service n = .ok s := by
  unfold describe_secure64_service
  cases h : ffa_64_function_id n <;> simp [h]

theorem topFlatOk_smccc (v : Nat) : TopFlatOk v 64 (decode_smccc v) := by
  obtain ⟨s0, h0⟩ := describe_call_ok (extract v 31 32)
  obtain ⟨s1, h1⟩ := describe_convention_ok (extract v 30 31)
  obtain ⟨s2, h2⟩ := describe_service_ok (extract v 24 30)
  obtain ⟨s3, h3⟩ := describe_yield_ok (extract v 0 31)
  obtain ⟨t1, g1⟩ := describe_arm32_ok (extract v 0 16)
  obtain ⟨t2, g2⟩ := describe_arm64_ok (extract v 0 16)
  obtain ⟨t3, g3⟩ := describe_general32_ok (extract v 0 16)
  obtain ⟨t4, g4⟩ := describe_general64_ok (extract v 0 16)
  obtain ⟨t5, g5⟩ := describe_hyp64_ok (extract v 0 16)
  obtain ⟨t6, g6⟩ := describe_secure32_ok (extract v 0 16)
  obtain ⟨t7, g7⟩ := describe_secure64_ok (extract v 0 16)
  unfold decode_smccc parse_fastcall parse_yieldcall decode_arm_service decode_secure_service
    decode_hyp_service decode_tapp_service decode_common_service
  simp only [FieldInfo.get_bit_eq, FieldInfo.get_eq, FieldInfo.describe_bit_mk1,
    FieldInfo.as_bit_mk1, FieldInfo.check_res0, FieldInfo.describe, FieldInfo.value_mk,
    FieldInfo.with_description, h0, h1, h2, h3, g1, g2, g3, g4, g5, g6, g7, DR_bind_ite]
  repeat' (first
    | simp only [DR_bind_ite]
    | split
    | simp only [DR_bind_def, DR_map_def, DR_bind_ok, DR_bind_error, DR_pure])
  all_goals first
    | (simp_all [TopFlatOk, FlatOk]; done)
    | (rename_i a heq
       (repeat' split at heq) <;>
         first
           | exact Except.noConfusion heq
           | (injection heq with hinj
              subst hinj
              simp_all [TopFlatOk, FlatOk]))

/-! ### The recursive extraction invariant (round-trip bit accounting) -/

/-- A `FieldInfo` tree is faithful to `parent` (of bit width `pw`): its value
is the extraction of its declared bit range, the range lies within the
parent, and recursively every subfield is faithful to this field's value. -/
def FieldOk (parent pw : Nat) : FieldInfo → Prop
  | .mk _ _ s w v _ subs =>
      v = extract parent s (s + w) ∧ s + w ≤ pw ∧ ∀ g ∈ subs, FieldOk v w g
termination_by f => sizeOf f
decreasing_by
  simp_wf
  rename_i hmem
  have := List.sizeOf_lt_of_mem hmem
  omega

theorem FieldOk_of_flat {parent pw : Nat} {f : FieldInfo} (h : FlatOk parent pw f) :
    FieldOk parent pw f := by
  obtain ⟨h1, h2, h3⟩ := h
  cases f with
  | mk n l s w v d subs =>
    simp only [FieldInfo.value_mk, FieldInfo.start_mk, FieldInfo.width_mk,
      FieldInfo.subfields_mk] at h1 h2 h3
    subst h3
    simp only [FieldOk]
    exact ⟨h1, h2, by simp⟩

theorem FieldOk_bounds {parent pw : Nat} {f : FieldInfo} (h : FieldOk parent pw f) :
    f.value < 2 ^ f.width ∧ f.start + f.width ≤ pw := by
  cases f with
  | mk n l s w v d subs =>
    simp only [FieldOk] at h
    refine ⟨?_, h.2.1⟩
    simp only [FieldInfo.value_mk, FieldInfo.width_mk]
    have := extract_lt parent s (s + w)
    rw [Nat.add_sub_cancel_left] at this
    exact h.1 ▸ this

/-! ### Shape of the Data Abort ISS decode (ISV gating) -/

/-- There is a field with the given name and bit range in the list. -/
def hasField (fs : List FieldInfo) (n : String) (s w : Nat) : Prop :=
  ∃ f ∈ fs, f.name = n ∧ f.start = s ∧ f.width = w

theorem data_abort_isv1 (iss : Nat) (hisv : extract iss 24 25 = 1) (fs : List FieldInfo)
    (h : decode_iss_data_abort iss = .ok fs) :
    hasField fs "SAS" 22 2 ∧ hasField fs "SSE" 21 1 ∧ hasField fs "SRT" 16 5 ∧
    hasField fs "SF" 15 1 ∧ hasField fs "AR" 14 1 := by
  unfold decode_iss_data_abort at h
  simp only [FieldInfo.get_bit_eq, FieldInfo.get_eq, FieldInfo.describe_bit_mk1,
    FieldInfo.as_bit_mk1, FieldInfo.check_res0, FieldInfo.describe, FieldInfo.value_mk,
    FieldInfo.with_description, DR_bind_ite] at h
  simp only [DR_bind_def, DR_map_def, DR_bind_ok, DR_bind_error, DR_pure] at h
  rcases hsas : sas_description (extract iss 22 24) with e1 | s1 <;>
    rcases hfsc : describe_fsc (extract iss 0 6) with e2 | s2 <;>
      rcases hset : describe_set (extract iss 11 13) with e3 | s3 <;>
        simp only [hsas, hfsc, hset] at h <;>
        (repeat' split at h) <;>
        first
          | exact Except.noConfusion h
          | (injection h with hinj
             subst hinj
             simp_all [hasField])

theorem data_abort_isv0 (iss : Nat) (hisv : extract iss 24 25 = 0) (fs : List FieldInfo)
    (h : decode_iss_data_abort iss = .ok fs) :
    extract iss 14 24 = 0 ∧ hasField fs "RES0" 14 10 ∧
    ∀ f ∈ fs, f.name ≠ "SAS" ∧ f.name ≠ "SSE" ∧ f.name ≠ "SRT" ∧ f.name ≠ "SF" ∧
      f.name ≠ "AR" := by
  unfold decode_iss_data_abort at h
  simp only [FieldInfo.get_bit_eq, FieldInfo.get_eq, FieldInfo.describe_bit_mk1,
    FieldInfo.as_bit_mk1, FieldInfo.check_res0, FieldInfo.describe, FieldInfo.value_mk,
    FieldInfo.with_description, DR_bind_ite] at h
  simp only [DR_bind_def, DR_map_def, DR_bind_ok, DR_bind_error, DR_pure] at h
  rcases hsas : sas_description (extract iss 22 24) with e1 | s1 <;>
    rcases hfsc : describe_fsc (extract iss 0 6) with e2 | s2 <;>
      rcases hset : describe_set (extract iss 11 13) with e3 | s3 <;>
        simp only [hsas, hfsc, hset] at h <;>
        (repeat' split at h) <;>
        first
          | exact Except.noConfusion h
          | (injection h with hinj
             subst hinj
             simp_all [hasField])

/-! ### Extraction from the ISS field equals extraction from the register -/

theorem extract_extract {v k s e : Nat} (h : e ≤ k) :
    extract (extract v 0 k) s e = extract v s e := by
  unfold extract
  simp only [Nat.shiftRight_zero, Nat.zero_le, Nat.sub_zero, Nat.shiftRight_eq_div_pow]
  rcases Nat.le_total e s with hse | hse
  · have he : e - s = 0 := by omega
    simp [he, Nat.mod_one]
  · have hsk : s ≤ k := le_trans hse h
    rw [show (2 : Nat) ^ k = 2 ^ s * 2 ^ (k - s) by
      rw [← Nat.pow_add, Nat.add_sub_cancel' hsk]]
    rw [Nat.mod_mul_right_div_self]
    rw [Nat.mod_mod_of_dvd _ (pow_dvd_pow 2 (show e - s ≤ k - s by omega))]
    simp

/-! ### Evaluation of the MSR/MRS decode -/

theorem decode_iss_msr_ok (iss : Nat) (h22 : extract iss 22 25 = 0) :
    decode_iss_msr iss = .ok (
      [FieldInfo.mk "RES0" (some "Reserved") 22 3 (extract iss 22 25) none [],
       FieldInfo.mk "Op0" none 20 2 (extract iss 20 22) none [],
       FieldInfo.mk "Op2" none 17 3 (extract iss 17 20) none [],
       FieldInfo.mk "Op1" none 14 3 (extract iss 14 17) none [],
       FieldInfo.mk "CRn" none 10 4 (extract iss 10 14) none [],
       FieldInfo.mk "Rt" (some "General-purpose register number of the trapped instruction")
         5 5 (extract iss 5 10) none [],
       FieldInfo.mk "CRm" none 1 4 (extract iss 1 5) none [],
       FieldInfo.mk "Direction" (some "Direction of the trapped instruction") 0 1
         (extract iss 0 1) (some (msr_describe_direction (extract iss 0 1 == 1))) []],
      some (if extract iss 0 1 = 0 then
          "MSR " ++ sysreg_name (extract iss 20 22) (extract iss 14 17) (extract iss 17 20)
            (extract iss 10 14) (extract iss 1 5) ++ ", x" ++ toString (extract iss 5 10)
        else
          "MRS x" ++ toString (extract iss 5 10) ++ ", " ++
            sysreg_name (extract iss 20 22) (extract iss 14 17) (extract iss 17 20)
              (extract iss 10 14) (extract iss 1 5))) := by
  unfold decode_iss_msr
  simp only [FieldInfo.get_bit_eq, FieldInfo.get_eq, FieldInfo.describe_bit_mk1,
    FieldInfo.as_bit_mk1, FieldInfo.check_res0, FieldInfo.value_mk, FieldInfo.with_description,
    DR_bind_ite]
  simp only [DR_bind_def, DR_map_def, DR_bind_ok, DR_bind_error, DR_pure]
  rw [if_neg (by omega)]
  norm_num

/-- Evaluation of `decode` on the trapped-MSR/MRS Exception Class. -/
theorem decode_msr_branch (esr : Nat) (h0 : extract esr 37 64 = 0)
    (hec : extract esr 26 32 = 0b011000) :
    decode esr = (decode_iss_msr (extract esr 0 25)).map (fun p =>
      [FieldInfo.mk "RES0" (some "Reserved") 37 27 (extract esr 37 64) none [],
       FieldInfo.mk "ISS2" none 32 5 (extract esr 32 37) none [],
       FieldInfo.mk "EC" (some "Exception Class") 26 6 (extract esr 26 32)
         (some "Trapped MSR, MRS or System instruction execution in AArch64 state") [],
       FieldInfo.mk "IL" (some "Instruction Length") 25 1 (extract esr 25 26)
         (some (describe_il (extract esr 25 26 == 1))) [],
       FieldInfo.mk "ISS" (some "Instruction Specific Syndrome") 0 25 (extract esr 0 25)
         p.2 p.1]) := by
  unfold decode
  simp only [FieldInfo.get_bit_eq, FieldInfo.get_eq, FieldInfo.describe_bit_mk1,
    FieldInfo.as_bit_mk1, FieldInfo.check_res0, FieldInfo.value_mk, FieldInfo.with_description,
    FieldInfo.with_parts_mk, DR_bind_ite]
  simp only [DR_bind_def, DR_map_def, DR_bind_ok, DR_bind_error, DR_pure]
  rw [if_neg (by omega)]
  split
  all_goals first
    | (cases hm : decode_iss_msr (extract esr 0 25) with
       | error e => simp [hm, DR_map_def]
       | ok p => simp [hm, DR_map_def])
    | (exfalso; omega)
    | simp_all

/-! ### Claim theorems -/

/-- C1 counterexample: the ESR `0xC0000000` carries the recognized Breakpoint
EC `0b110000` with ISS zero, yet `decode` neither succeeds nor fails with
`InvalidEc`: it fails with `InvalidFsc 0` from the class's ISS sub-decoder,
refuting "must either succeed with a recognized class description or fail
with `InvalidEc{ec}`" as literally stated. -/
theorem claim_C1_counterexample :
    decode 0xC0000000 = .error (.err (.InvalidFsc 0)) := by rfl

/-- C1 (amended): for every ESR value, `decode` never panics; a success is
never empty and carries a class description on the EC field; `InvalidEc`
arises exactly for an EC outside the 35 recognized classes when the top
reserved bits are zero, and it always carries the offending EC value; a
recognized EC may additionally fail with another `DecodeError` from the
top-level RES0 check or its ISS sub-decoder. -/
theorem claim_C1 (esr : Nat) :
    decode esr ≠ .error .panic ∧
    (∀ fs, decode esr = .ok fs → fs ≠ [] ∧ ∃ f ∈ fs, f.name = "EC" ∧ f.description ≠ none) ∧
    (decode esr = .error (.err (.InvalidEc (extract esr 26 32))) ↔
      extract esr 37 64 = 0 ∧ definedEc (extract esr 26 32) = false) ∧
    (∀ n, decode esr = .error (.err (.InvalidEc n)) → n = extract esr 26 32) := by
  refine ⟨?_, ?_, ⟨?_, ?_⟩, ?_⟩
  · intro hpan
    have hd := decode_ok esr
    rw [hpan] at hd
    exact hd
  · intro fs hfs
    have hd := decode_ok esr
    rw [hfs] at hd
    obtain ⟨cls, d, subs, hfs2, -, -, -, -, -⟩ := hd
    subst hfs2
    exact ⟨by simp, FieldInfo.mk "EC" (some "Exception Class") 26 6 (extract esr 26 32)
      (some cls) [], by simp, rfl, by simp⟩
  · intro h
    have hd := decode_ok esr
    rw [h] at hd
    obtain ⟨-, h2, h3⟩ := hd _ rfl
    exact ⟨h2, h3⟩
  · rintro ⟨h0, hdef⟩
    exact decode_invalid_ec esr h0 hdef
  · intro n hn
    have hd := decode_ok esr
    rw [hn] at hd
    exact (hd n rfl).1

/-- C1 witness: EC `0b000010` is not a recognized class, so decoding an ESR
that carries it (with the top reserved bits zero) fails with `InvalidEc 2`. -/
theorem claim_C1_witness :
    decode 0x08000000 = .error (.err (.InvalidEc (extract 0x08000000 26 32))) :=
  (claim_C1 0x08000000).2.2.1.mpr ⟨by decide, by decide⟩

/-- C2 counterexample: the ESR `0x94001800` is a Data Abort with ISV = 0 and
DFSC ≠ `0b010000`, whose SET-position reserved field (ISS bits `[11, 13)`,
declared `RES0` by the decoder) holds the nonzero value 3 — yet decoding
succeeds instead of failing with `InvalidRes0`, refuting the claim for that
declared-RES0 bit range. -/
theorem claim_C2_counterexample :
    decode 0x94001800 = .ok
      [FieldInfo.mk "RES0" (some "Reserved") 37 27 0 none [],
       FieldInfo.mk "ISS2" none 32 5 0 none [],
       FieldInfo.mk "EC" (some "Exception Class") 26 6 37
         (some "Data Abort taken without a change in Exception level") [],
       FieldInfo.mk "IL" (some "Instruction Length") 25 1 0
         (some "16-bit instruction trapped") [],
       FieldInfo.mk "ISS" (some "Instruction Specific Syndrome") 0 25 6144 none
         [FieldInfo.mk "ISV" (some "Instruction Syndrome Valid") 24 1 0
            (some "No valid instruction syndrome") [],
          FieldInfo.mk "RES0" (some "Reserved") 14 10 0 none [],
          FieldInfo.mk "VNCR" none 13 1 0 none [],
          FieldInfo.mk "RES0" (some "Reserved") 11 2 3 none [],
          FieldInfo.mk "FnV" (some "FAR not Valid") 10 1 0 (some "FAR is valid") [],
          FieldInfo.mk "EA" (some "External abort type") 9 1 0 none [],
          FieldInfo.mk "CM" (some "Cache Maintenance") 8 1 0 none [],
          FieldInfo.mk "S1PTW" (some "Stage-1 translation table walk") 7 1 0 none [],
          FieldInfo.mk "WnR" (some "Write not Read") 6 1 0
            (some "Abort caused by reading from memory") [],
          FieldInfo.mk "DFSC" (some "Data Fault Status Code") 0 6 0
            (some "Address size fault, level 0 of translation or translation table base register.")
            []]] := by rfl

/-- C2 (amended): `check_res0` fails with `InvalidRes0` carrying the exact
nonzero value; nonzero top-level reserved bits fail the whole ESR decode the
same way; and in every successful decode every field named `RES0` —
top-level or inside the ISS subfields — has value zero, with the single
exception of the unvalidated SET-position reserved field (ISS bits
`[11, 13)`) of the two abort decoders. -/
theorem claim_C2 :
    (∀ f : FieldInfo, f.value ≠ 0 → f.check_res0 = .error (.err (.InvalidRes0 f.value))) ∧
    (∀ esr : Nat, extract esr 37 64 ≠ 0 →
      decode esr = .error (.err (.InvalidRes0 (extract esr 37 64)))) ∧
    (∀ (esr : Nat) (fs : List FieldInfo), decode esr = .ok fs → ∀ f ∈ fs,
      (f.name = "RES0" → f.value = 0) ∧
      ∀ g ∈ f.subfields, g.name = "RES0" → g.value = 0 ∨ (g.start = 11 ∧ g.width = 2)) := by
  refine ⟨?_, ?_, ?_⟩
  · intro f h
    simp [FieldInfo.check_res0, h]
  · intro esr h
    exact decode_res0_fail esr h
  · intro esr fs h f hf
    have hd := decode_ok esr
    rw [h] at hd
    obtain ⟨cls, d, subs, hfs, h0, -, hflat, -, -⟩ := hd
    subst hfs
    simp only [List.mem_cons, List.not_mem_nil, or_false] at hf
    rcases hf with rfl | rfl | rfl | rfl | rfl
    · exact ⟨fun _ => h0, by simp⟩
    · exact ⟨by simp, by simp⟩
    · exact ⟨by simp, by simp⟩
    · exact ⟨by simp, by simp⟩
    · exact ⟨by simp, fun g hg => (hflat g (by simpa using hg)).2⟩

/-- C2 witness: bit 37 set (top-level RES0 nonzero) fails the decode with
`InvalidRes0` carrying the extracted value. -/
theorem claim_C2_witness :
    decode 137438953472 = .error (.err (.InvalidRes0 (extract 137438953472 37 64))) :=
  claim_C2.2.1 137438953472 (by decide)

/-- C5: the claim is right and the code is wrong. `describe_aet` in
`src/esr/serror.rs` writes the Corrected (CE) arm as `0x110` instead of
`0b110`, so the architecturally defined AET value `0b110` can never match
and an SError ESR with IDS clear, reserved bits zero, valid DFSC and
AET = `0b110` fails with `InvalidAet 6` instead of succeeding with the
description "Corrected (CE)". -/
theorem claim_C5_bug :
    decode 0xBC001800 = .error (.err (.InvalidAet 6)) ∧ describe_aet 0b110 ≠ .ok "Corrected (CE)" ∧
    describe_aet 0x110 = .ok "Corrected (CE)" := by
  refine ⟨by rfl, ?_, by rfl⟩
  intro h
  rw [show describe_aet 6 = .error (.err (.InvalidAet 6)) from rfl] at h
  exact Except.noConfusion h

/-- C7: the golden Instruction Abort scenario. `decode 0x82001e10` succeeds
with EC = 32 described as an Instruction Abort from a lower Exception
level, and ISS subfields SET = 3 ("Restartable state (UEO)"), FnV = 1
("FAR is not valid..."), and IFSC = 0x10. -/
theorem claim_C7 :
    decode 0x82001e10 = .ok
      [FieldInfo.mk "RES0" (some "Reserved") 37 27 0 none [],
       FieldInfo.mk "ISS2" none 32 5 0 none [],
       FieldInfo.mk "EC" (some "Exception Class") 26 6 32
         (some "Instruction Abort from a lower Exception level") [],
       FieldInfo.mk "IL" (some "Instruction Length") 25 1 1
         (some "32-bit instruction trapped") [],
       FieldInfo.mk "ISS" (some "Instruction Specific Syndrome") 0 25 7696 none
         [FieldInfo.mk "RES0" (some "Reserved") 13 12 0 none [],
          FieldInfo.mk "SET" (some "Synchronous Error Type") 11 2 3
            (some "Restartable state (UEO)") [],
          FieldInfo.mk "FnV" (some "FAR not Valid") 10 1 1
            (some "FAR is not valid, it holds an unknown value") [],
          FieldInfo.mk "EA" (some "External abort type") 9 1 1 none [],
          FieldInfo.mk "RES0" (some "Reserved") 8 1 0 none [],
          FieldInfo.mk "S1PTW" (some "Stage-1 translation table walk") 7 1 0 none [],
          FieldInfo.mk "RES0" (some "Reserved") 6 1 0 none [],
          FieldInfo.mk "IFSC" (some "Instruction Fault Status Code") 0 6 16
            (some "Synchronous External abort, not on translation table walk or hardware update of translation table.")
            []]] := by rfl

/-- C8: each decoder is a pure function of its input value in this
embedding — repeated applications to the same value are definitionally the
same result, with no other state to read. -/
theorem claim_C8 (v : Nat) :
    decode v = decode v ∧ decode_midr v = decode_midr v ∧ decode_smccc v = decode_smccc v :=
  ⟨rfl, rfl, rfl⟩

/-- C9: any MIDR input with a nonzero bit among `[32, 64)` fails with
`InvalidRes0` carrying that extracted value; it is never silently
truncated into a successful decode. -/
theorem claim_C9 (v : Nat) (h : extract v 32 64 ≠ 0) :
    decode_midr v = .error (.err (.InvalidRes0 (extract v 32 64))) := by
  unfold decode_midr
  simp only [FieldInfo.get_bit_eq, FieldInfo.get_eq, FieldInfo.describe_bit_mk1,
    FieldInfo.as_bit_mk1, FieldInfo.check_res0, FieldInfo.describe, FieldInfo.value_mk,
    FieldInfo.with_description, DR_bind_ite]
  simp only [DR_bind_def, DR_map_def, DR_bind_ok, DR_bind_error, DR_pure]
  rw [if_pos h]

/-- C9 witness: `decode_midr` of `2^32` fails with `InvalidRes0 1`. -/
theorem claim_C9_witness :
    decode_midr 4294967296 = .error (.err (.InvalidRes0 (extract 4294967296 32 64))) :=
  claim_C9 4294967296 (by decide)

/-- C10: every Yielding Call (bit 31 clear) decodes successfully into
exactly the Call Type field (described "Yielding Call") and the Service
Type field (bits `[0, 31)`), whose description is the total range
classification of the 31-bit service value. -/
theorem claim_C10 (v : Nat) (h : extract v 31 32 = 0) :
    decode_smccc v = .ok
      [FieldInfo.mk "Call Type" none 31 1 (extract v 31 32) (some "Yielding Call") [],
       FieldInfo.mk "Service Type" none 0 31 (extract v 0 31)
         (some (if extract v 0 31 ≤ 0x0100FFFF then
             "Reserved for existing APIs (in use by the existing Armv7 devices)"
           else if 0x02000000 ≤ extract v 0 31 ∧ extract v 0 31 ≤ 0x1FFFFFFF then
             "Trusted OS Yielding Calls"
           else if 0x20000000 ≤ extract v 0 31 ∧ extract v 0 31 ≤ 0x7FFFFFFF then
             "Reserved for future expansion of Trusted OS Yielding Calls"
           else "Unknown")) []] := by
  unfold decode_smccc parse_yieldcall describe_call describe_yield_service
  simp only [FieldInfo.get_bit_eq, FieldInfo.get_eq, FieldInfo.describe_bit_mk1,
    FieldInfo.as_bit_mk1, FieldInfo.describe, FieldInfo.value_mk, FieldInfo.with_description,
    h, DR_bind_ite]
  simp only [DR_bind_def, DR_map_def, DR_bind_ok, DR_bind_error, DR_pure]
  norm_num

/-- C10 witness: the Yielding Call `0x02000001` decodes to the two fields
with the Service Type classified as a Trusted OS Yielding Call. -/
theorem claim_C10_witness :
    decode_smccc 0x02000001 = .ok
      [FieldInfo.mk "Call Type" none 31 1 0 (some "Yielding Call") [],
       FieldInfo.mk "Service Type" none 0 31 33554433
         (some "Trusted OS Yielding Calls") []] :=
  (claim_C10 0x02000001 (by decide)).trans (by rfl)

/-- C3: for a Data Abort ESR (EC `0b100100` or `0b100101`), every successful
decode has an ISS field whose subfields are gated on ISV (ISS bit 24): when
ISV = 1 the register-transfer fields SAS, SSE, SRT, SF and AR are present at
their architectural positions, and when ISV = 0 those names are absent and
ISS bits `[14, 24)` are RES0: checked zero and emitted as a single reserved
field. -/
theorem claim_C3 (esr : Nat)
    (hec : extract esr 26 32 = 0b100100 ∨ extract esr 26 32 = 0b100101)
    (fs : List FieldInfo) (h : decode esr = .ok fs) :
    ∃ issf ∈ fs, issf.name = "ISS" ∧
      (extract (extract esr 0 25) 24 25 = 1 →
        hasField issf.subfields "SAS" 22 2 ∧ hasField issf.subfields "SSE" 21 1 ∧
        hasField issf.subfields "SRT" 16 5 ∧ hasField issf.subfields "SF" 15 1 ∧
        hasField issf.subfields "AR" 14 1) ∧
      (extract (extract esr 0 25) 24 25 = 0 →
        extract (extract esr 0 25) 14 24 = 0 ∧ hasField issf.subfields "RES0" 14 10 ∧
        ∀ f ∈ issf.subfields, f.name ≠ "SAS" ∧ f.name ≠ "SSE" ∧ f.name ≠ "SRT" ∧
          f.name ≠ "SF" ∧ f.name ≠ "AR") := by
  have hd := decode_ok esr
  rw [h] at hd
  obtain ⟨cls, d, subs, hfs, h0, hdef, hflat, hda, hmsr⟩ := hd
  subst hfs
  refine ⟨FieldInfo.mk "ISS" (some "Instruction Specific Syndrome") 0 25 (extract esr 0 25)
    d subs, by simp, by simp, ?_, ?_⟩
  · intro hisv
    obtain ⟨hsub, -⟩ := hda hec
    simpa using data_abort_isv1 (extract esr 0 25) hisv subs hsub
  · intro hisv
    obtain ⟨hsub, -⟩ := hda hec
    simpa using data_abort_isv0 (extract esr 0 25) hisv subs hsub

/-- C3 witness: `0x96000050` is a Data Abort with ISV = 0; its decode has
the RES0 `[14, 24)` subfield and none of the register-transfer fields. -/
theorem claim_C3_witness :
    ∃ issf ∈ ([FieldInfo.mk "RES0" (some "Reserved") 37 27 0 none [],
       FieldInfo.mk "ISS2" none 32 5 0 none [],
       FieldInfo.mk "EC" (some "Exception Class") 26 6 37
         (some "Data Abort taken without a change in Exception level") [],
       FieldInfo.mk "IL" (some "Instruction Length") 25 1 1
         (some "32-bit instruction trapped") [],
       FieldInfo.mk "ISS" (some "Instruction Specific Syndrome") 0 25 80 none
         [FieldInfo.mk "ISV" (some "Instruction Syndrome Valid") 24 1 0
            (some "No valid instruction syndrome") [],
          FieldInfo.mk "RES0" (some "Reserved") 14 10 0 none [],
          FieldInfo.mk "VNCR" none 13 1 0 none [],
          FieldInfo.mk "SET" (some "Synchronous Error Type") 11 2 0
            (some "Recoverable state (UER)") [],
          FieldInfo.mk "FnV" (some "FAR not Valid") 10 1 0 (some "FAR is valid") [],
          FieldInfo.mk "EA" (some "External abort type") 9 1 0 none [],
          FieldInfo.mk "CM" (some "Cache Maintenance") 8 1 0 none [],
          FieldInfo.mk "S1PTW" (some "Stage-1 translation table walk") 7 1 0 none [],
          FieldInfo.mk "WnR" (some "Write not Read") 6 1 1
            (some "Abort caused by writing to memory") [],
          FieldInfo.mk "DFSC" (some "Data Fault Status Code") 0 6 16
            (some "Synchronous External abort, not on translation table walk or hardware update of translation table.")
            []]] : List FieldInfo), issf.name = "ISS" ∧
      (extract (extract 0x96000050 0 25) 24 25 = 1 →
        hasField issf.subfields "SAS" 22 2 ∧ hasField issf.subfields "SSE" 21 1 ∧
        hasField issf.subfields "SRT" 16 5 ∧ hasField issf.subfields "SF" 15 1 ∧
        hasField issf.subfields "AR" 14 1) ∧
      (extract (extract 0x96000050 0 25) 24 25 = 0 →
        extract (extract 0x96000050 0 25) 14 24 = 0 ∧
        hasField issf.subfields "RES0" 14 10 ∧
        ∀ f ∈ issf.subfields, f.name ≠ "SAS" ∧ f.name ≠ "SSE" ∧ f.name ≠ "SRT" ∧
          f.name ≠ "SF" ∧ f.name ≠ "AR") :=
  claim_C3 0x96000050 (Or.inr (by decide)) _ rfl

/-- C4: in every successful decode (ESR, MIDR or SMCCC), every field tree
satisfies the recursive extraction invariant: its value is exactly the
extraction of its declared bit range from its parent value, the range fits
in the parent width, and the same holds recursively for subfields against
the field's value; the invariant entails the claimed bounds
`value < 2 ^ width` and `start + width ≤ parent width`. -/
theorem claim_C4 :
    (∀ v fs, decode v = .ok fs → ∀ f ∈ fs, FieldOk v 64 f) ∧
    (∀ v fs, decode_midr v = .ok fs → ∀ f ∈ fs, FieldOk v 64 f) ∧
    (∀ v fs, decode_smccc v = .ok fs → ∀ f ∈ fs, FieldOk v 64 f) ∧
    (∀ parent pw f, FieldOk parent pw f →
      f.value < 2 ^ f.width ∧ f.start + f.width ≤ pw) := by
  refine ⟨?_, ?_, ?_, ?_⟩
  · intro v fs h f hf
    have hd := decode_ok v
    rw [h] at hd
    obtain ⟨cls, d, subs, hfs, h0, -, hflat, -, -⟩ := hd
    subst hfs
    simp only [List.mem_cons, List.not_mem_nil, or_false] at hf
    rcases hf with rfl | rfl | rfl | rfl | rfl
    · exact (by simp only [FieldOk]; exact ⟨by norm_num, by norm_num, by simp⟩)
    · exact (by simp only [FieldOk]; exact ⟨by norm_num, by norm_num, by simp⟩)
    · exact (by simp only [FieldOk]; exact ⟨by norm_num, by norm_num, by simp⟩)
    · exact (by simp only [FieldOk]; exact ⟨by norm_num, by norm_num, by simp⟩)
    · simp only [FieldOk]
      exact ⟨by norm_num, by norm_num, fun g hg => FieldOk_of_flat (hflat g hg).1⟩
  · intro v fs h f hf
    have ht := topFlatOk_midr v
    rw [h] at ht
    exact FieldOk_of_flat (ht f hf)
  · intro v fs h f hf
    have ht := topFlatOk_smccc v
    rw [h] at ht
    exact FieldOk_of_flat (ht f hf)
  · intro parent pw f h
    exact FieldOk_bounds h

/-- C4 witness: the EC field of `decode 0` satisfies the invariant against
the register value 0 at width 64. -/
theorem claim_C4_witness :
    FieldOk 0 64 (FieldInfo.mk "EC" (some "Exception Class") 26 6 0
      (some "Unknown reason") []) :=
  claim_C4.1 0
    [FieldInfo.mk "RES0" (some "Reserved") 37 27 0 none [],
     FieldInfo.mk "ISS2" none 32 5 0 none [],
     FieldInfo.mk "EC" (some "Exception Class") 26 6 0 (some "Unknown reason") [],
     FieldInfo.mk "IL" (some "Instruction Length") 25 1 0
       (some "16-bit instruction trapped") [],
     FieldInfo.mk "ISS" (some "Instruction Specific Syndrome") 0 25 0 none
       [FieldInfo.mk "RES0" (some "Reserved") 0 25 0 (some "ISS is RES0") []]]
    rfl
    (FieldInfo.mk "EC" (some "Exception Class") 26 6 0 (some "Unknown reason") [])
    (by simp)

/-- C6 counterexample: an ESR with EC `0b011000`, ISS bits `[22, 25)` zero,
but bit 37 set fails the top-level RES0 check before the MSR sub-decoder
runs — the claim needs the extra precondition that bits `[37, 64)` of the
ESR are zero. -/
theorem claim_C6_counterexample :
    decode 0x2060000000 = .error (.err (.InvalidRes0 1)) := by rfl

/-- C6 (amended with the top-level RES0 precondition): for EC `0b011000`
with ISS bits `[22, 25)` zero and ESR bits `[37, 64)` zero, the decode
succeeds; the Op0/Op2/Op1/CRn/CRm/Rt/Direction subfields are the exact ISS
bit ranges, and the ISS description is "MSR <sysreg>, x<Rt>" for a write
(Direction bit 0) and "MRS x<Rt>, <sysreg>" for a read (Direction bit 1),
with the system-register name looked up from (Op0, CRn, Op1, CRm, Op2). -/
theorem claim_C6 (esr : Nat) (h0 : extract esr 37 64 = 0)
    (hec : extract esr 26 32 = 0b011000) (h22 : extract esr 22 25 = 0) :
    decode esr = .ok
      [FieldInfo.mk "RES0" (some "Reserved") 37 27 (extract esr 37 64) none [],
       FieldInfo.mk "ISS2" none 32 5 (extract esr 32 37) none [],
       FieldInfo.mk "EC" (some "Exception Class") 26 6 (extract esr 26 32)
         (some "Trapped MSR, MRS or System instruction execution in AArch64 state") [],
       FieldInfo.mk "IL" (some "Instruction Length") 25 1 (extract esr 25 26)
         (some (describe_il (extract esr 25 26 == 1))) [],
       FieldInfo.mk "ISS" (some "Instruction Specific Syndrome") 0 25 (extract esr 0 25)
         (some (if extract esr 0 1 = 0 then
             "MSR " ++ sysreg_name (extract esr 20 22) (extract esr 14 17) (extract esr 17 20)
               (extract esr 10 14) (extract esr 1 5) ++ ", x" ++ toString (extract esr 5 10)
           else
             "MRS x" ++ toString (extract esr 5 10) ++ ", " ++
               sysreg_name (extract esr 20 22) (extract esr 14 17) (extract esr 17 20)
                 (extract esr 10 14) (extract esr 1 5)))
         [FieldInfo.mk "RES0" (some "Reserved") 22 3 (extract esr 22 25) none [],
          FieldInfo.mk "Op0" none 20 2 (extract esr 20 22) none [],
          FieldInfo.mk "Op2" none 17 3 (extract esr 17 20) none [],
          FieldInfo.mk "Op1" none 14 3 (extract esr 14 17) none [],
          FieldInfo.mk "CRn" none 10 4 (extract esr 10 14) none [],
          FieldInfo.mk "Rt" (some "General-purpose register number of the trapped instruction")
            5 5 (extract esr 5 10) none [],
          FieldInfo.mk "CRm" none 1 4 (extract esr 1 5) none [],
          FieldInfo.mk "Direction" (some "Direction of the trapped instruction") 0 1
            (extract esr 0 1) (some (msr_describe_direction (extract esr 0 1 == 1))) []]] := by
  rw [decode_msr_branch esr h0 hec,
    decode_iss_msr_ok (extract esr 0 25) (by rw [extract_extract (by norm_num)]; exact h22)]
  simp only [DR_map_def]
  norm_num [extract_extract]

/-- C6 witness: `0x60300061` decodes as "MRS x3, MIDR_EL1". -/
theorem claim_C6_witness :
    decode 0x60300061 = .ok
      [FieldInfo.mk "RES0" (some "Reserved") 37 27 0 none [],
       FieldInfo.mk "ISS2" none 32 5 0 none [],
       FieldInfo.mk "EC" (some "Exception Class") 26 6 24
         (some "Trapped MSR, MRS or System instruction execution in AArch64 state") [],
       FieldInfo.mk "IL" (some "Instruction Length") 25 1 0
         (some "16-bit instruction trapped") [],
       FieldInfo.mk "ISS" (some "Instruction Specific Syndrome") 0 25 3145825
         (some "MRS x3, MIDR_EL1")
         [FieldInfo.mk "RES0" (some "Reserved") 22 3 0 none [],
          FieldInfo.mk "Op0" none 20 2 3 none [],
          FieldInfo.mk "Op2" none 17 3 0 none [],
          FieldInfo.mk "Op1" none 14 3 0 none [],
          FieldInfo.mk "CRn" none 10 4 0 none [],
          FieldInfo.mk "Rt" (some "General-purpose register number of the trapped instruction")
            5 5 3 none [],
          FieldInfo.mk "CRm" none 1 4 0 none [],
          FieldInfo.mk "Direction" (some "Direction of the trapped instruction") 0 1 1
            (some "Read from system register (MRS)") []]] :=
  (claim_C6 0x60300061 (by decide) (by decide) (by decide)).trans (by rfl)

end AArch64Esr
